import Mathlib

/-
  Verification of the Readers-Writers-Problem simulator
  (src/readers_writers_sim.py) against its specification.

  The development shallowly embeds the synchronization core of the program:

  * `semaphore_acquire` embeds `Semaphore.acquire` (lines 85-97): the loop is
    modelled as a function over the sequence of observations the thread makes
    at each evaluation of the loop head (the semaphore value it sees, and the
    elapsed time).  The call's effect on the counter is returned as a delta.
  * `get_avg_wait_time` embeds `SharedResource.get_avg_wait_time`
    (lines 142-144).
  * `Res`/`initRes` embed the fields of `SharedResource.__init__`
    (lines 111-140): the shared counters, the four semaphore values, the
    bookkeeping lists and the threshold constants.
  * `LocalStep` is a small-step operational semantics for `ReaderThread.run`
    and `WriterThread.run` (lines 161-394) together with their helpers
    `_acquire_read_lock`, `_release_read_lock`, `_acquire_write_lock`,
    `_release_write_lock` and `_cleanup_waiting`.  Each `Phase` value is a
    program point of the Python code; every mutex-protected block that
    contains no blocking operation is one atomic step (a sound reduction,
    since such blocks are data-race free), while the one place where the
    code blocks on `write_lock` while holding `mutex`
    (`_acquire_read_lock`, line 240) is its own phase `rAcq4`.  A semaphore
    `acquire(timeout=..)` either succeeds (value positive, decremented) or
    returns False; mirroring `Semaphore.acquire`, the False return can only
    happen at a moment when the value is observed nonpositive (the
    `while self._value <= 0` body), and when it fires is otherwise
    nondeterministic, since real time is abstracted.  `stop()` may set
    `running := false` at any moment (`stopFlagStep`).  Python exceptions are not modelled: none of
    the embedded counter/semaphore operations can raise.
  * `reqLog`/`admLog`/`aged` are history (ghost) fields: `reqLog` records the
    order in which workers registered their request (lines 166-169/292-295),
    `admLog` the order in which `_acquire_read_lock`/`_acquire_write_lock`
    (or the inline writer acquisition, line 316) returned `True`, and
    `aged` marks a thread that took the starvation-prevention break
    (lines 180-181 / 323-324).  They are written exactly at those points and
    never read by any step.
  * `WinState`/`applyOp` embed the id assignment of `MainWindow.add_reader`
    / `add_writer` / `reset_simulation` (lines 688-711, 755-788).

  The mode of the resource and the starvation_prevention flag are fixed for
  each execution (the claims quantify over interleavings of reader and
  writer tasks, not over concurrent UI reconfiguration).
-/

namespace RW

/-! ## Semaphore.acquire (lines 78-106) -/

/-- One observation made by `Semaphore.acquire` at the `while self._value <= 0`
loop head: the semaphore value seen at that instant (it may have been changed
by other threads since the previous iteration) and the elapsed time. -/
structure Obs where
  value : Int
  elapsed : Rat
deriving DecidableEq

/-- Embedding of `Semaphore.acquire` (lines 85-97).  `tmo = none` models a
call without a timeout (Python also treats `timeout=0` as falsy, i.e. as no
timeout).  The result is `none` when the observation trace is exhausted while
the call is still blocked, and otherwise `some (result, delta)` where `delta`
is the change this call makes to `self._value` (`-1` just before
`return True`, `0` on the `return False` path). -/
def semaphore_acquire (tmo : Option Rat) : List Obs → Option (Bool × Int)
  | [] => none
  | o :: rest =>
    if o.value ≤ 0 then
      match tmo with
      | some T => if T ≤ o.elapsed then some (false, 0) else semaphore_acquire (some T) rest
      | none => semaphore_acquire none rest
    else
      some (true, -1)

/-! ## SharedResource.get_avg_wait_time (lines 142-144) -/

/-- Embedding of `SharedResource.get_avg_wait_time`: `times` is the deque
selected by `process_type`; `sum(times) / len(times) if times else 0`
(an empty Python sequence is falsy). -/
def get_avg_wait_time (read_wait_times write_wait_times : List Rat)
    (process_type : String) : Rat :=
  let times := if process_type = "reader" then read_wait_times else write_wait_times
  if times = [] then 0 else times.sum / times.length

/-! ## MainWindow id assignment (lines 688-711, 755-788) -/

/-- User-visible operations of `MainWindow` that touch `next_id`. -/
inductive WinOp
  | addWorker
  | resetSim
  | toggleRun
deriving DecidableEq

/-- The id-assignment state of `MainWindow`: `next_id` (line 464, reset at
line 776), the `is_running` flag, and a history of every id handed to a
constructed worker thread, in order. -/
structure WinState where
  next_id : Nat
  is_running : Bool
  assignedLog : List Nat
deriving DecidableEq

/-- `MainWindow.__init__`: `next_id = 1`, not running, no workers yet. -/
def winInit : WinState := ⟨1, false, []⟩

/-- One UI operation.  `add_reader`/`add_writer` return early when the
simulation is not running (line 689/702); otherwise `curr_id = self.next_id;
self.next_id += 1` and a worker with id `curr_id` is created.
`reset_simulation` stops the run and sets `next_id = 1` (lines 756, 776).
`toggle_simulation` flips `is_running` (line 665). -/
def applyOp (s : WinState) : WinOp → WinState
  | .addWorker =>
    if s.is_running then
      ⟨s.next_id + 1, s.is_running, s.assignedLog ++ [s.next_id]⟩
    else s
  | .resetSim => ⟨1, false, s.assignedLog⟩
  | .toggleRun => ⟨s.next_id, !s.is_running, s.assignedLog⟩

/-- Running a sequence of UI operations from the initial window state. -/
def runOps (ops : List WinOp) : WinState := ops.foldl applyOp winInit

/-! ## The shared resource state (SharedResource.__init__, lines 111-140) -/

/-- The `mode` string of `SharedResource`: `'readers'`, `'writers'` and
`'fair'` (`'readers'` doubles as the `else` branch of the dispatch in
`ReaderThread.run`/`WriterThread.run`). -/
inductive Mode
  | readers
  | writers
  | fair
deriving DecidableEq

/-- The fields of `SharedResource` (lines 111-140), the four custom
semaphores being represented by their integer values, plus the two history
fields `reqLog` and `admLog` described in the file header. -/
structure Res where
  mode : Mode
  starvation_prevention : Bool
  data : Int
  readers_count : Int
  writers_waiting : Int
  readers_waiting : Int
  mutex : Nat
  write_lock : Nat
  read_try : Nat
  order_lock : Nat
  total_reads : Int
  total_writes : Int
  active_writer : Option Nat
  active_readers : List Nat
  waiting_readers_list : List Nat
  waiting_writers_list : List Nat
  max_concurrent_readers : Nat
  writer_priority_threshold : Rat
  max_wait_time : Rat
  reqLog : List Nat
  admLog : List Nat
deriving DecidableEq

/-- `SharedResource.__init__(mode, starvation_prevention)`: data 0, all
counters 0, all four semaphores at 1, empty lists,
`writer_priority_threshold = 5`, `max_wait_time = 10.0`. -/
def initRes (mode : Mode) (sp : Bool) : Res :=
  { mode := mode, starvation_prevention := sp, data := 0, readers_count := 0,
    writers_waiting := 0, readers_waiting := 0, mutex := 1, write_lock := 1,
    read_try := 1, order_lock := 1, total_reads := 0, total_writes := 0,
    active_writer := none, active_readers := [], waiting_readers_list := [],
    waiting_writers_list := [], max_concurrent_readers := 0,
    writer_priority_threshold := 5, max_wait_time := 10, reqLog := [],
    admLog := [] }

/-! ## Program points of ReaderThread.run and WriterThread.run -/

/-- Program points of the two thread bodies.  Reader phases:
`rIdle` before `run` starts; `rPoll` the writers-mode politeness loop
(lines 173-184); `rOrder` blocked in `order_lock.acquire(timeout=15)`
(line 188); `rAcq1` at `read_try.acquire(timeout=15)` (line 233); `rAcq2`
at `mutex.acquire(timeout=5)` (line 235); `rAcq4` holding `mutex` and
`read_try`, `readers_count` already incremented to 1, blocked in
`write_lock.acquire(timeout=15)` (line 240); `rOrdRel b` about to release
`order_lock` with `acquired = b` (line 192); `rPost b` at the
`if not acquired or not self.running` check (line 197); `rAppend` at the
mutex block appending to `active_readers` (lines 204-210); `rHold` inside
the simulated read; `rRel` at `_release_read_lock` (lines 252-260);
`rCleanup` at `_cleanup_waiting` (lines 262-267); `rDone` terminated.
Writer phases are analogous for lines 287-394; `wPoll`/`wTryRT`/`wTryWL`/
`wTryMux`/`wPollAfter` are the readers-mode loop (lines 300-327), `wWrite`
is the critical-section write (lines 343-346). -/
inductive Phase
  | rIdle | rPoll | rOrder | rAcq1 | rAcq2 | rAcq4
  | rOrdRel (acquired : Bool) | rPost (acquired : Bool)
  | rAppend | rHold | rRel | rCleanup | rDone
  | wIdle | wPoll | wTryRT | wTryWL | wTryMux | wPollAfter
  | wOrder | wAcq1 | wAcq2 | wAcq3
  | wOrdRel (acquired : Bool) | wPost (acquired : Bool)
  | wWrite | wHold | wRel | wCleanup | wDone
deriving DecidableEq

/-- One reader or writer thread: its id, current program point, the
cooperative `running` flag (line 157/283, cleared by `stop()`), and which
semaphore tokens it currently holds (`ord` = `order_lock`,
`wrt` = `read_try` for writers, `wwl` = `write_lock` for writers,
`cnt` = this thread has incremented `readers_count` and not yet decremented
it).  `aged` is the ghost flag for the starvation-prevention break. -/
structure Thread where
  id : Nat
  phase : Phase
  running : Bool
  ord : Bool
  wrt : Bool
  wwl : Bool
  cnt : Bool
  aged : Bool
deriving DecidableEq

/-- Dispatch of `ReaderThread.run` on `self.resource.mode`
(lines 172, 187, 194): `'writers'` enters the politeness loop, `'fair'`
goes for `order_lock`, anything else goes straight to
`_acquire_read_lock`. -/
def readerEnterPhase : Mode → Phase
  | .writers => .rPoll
  | .fair => .rOrder
  | .readers => .rAcq1

/-- Dispatch of `WriterThread.run` on `self.resource.mode`
(lines 298, 328, 334). -/
def writerEnterPhase : Mode → Phase
  | .readers => .wPoll
  | .fair => .wOrder
  | .writers => .wAcq1

/-! ## The step relation -/

/-- One step of a single thread against the shared resource.  Guards of the
form `0 < r.sem` model a (possibly blocking) semaphore acquisition that
succeeds; a `Fail` constructor with no such guard models the timeout branch
of an `acquire(timeout=..)` call, which may fire at any time. -/
inductive LocalStep : Res → Thread → Res → Thread → Prop
  /- Lines 166-169: register as waiting (mutex block), then dispatch on
  mode. -/
  | rEnterStep {r t} (hp : t.phase = .rIdle) (hm : 0 < r.mutex) :
      LocalStep r t
        { r with readers_waiting := r.readers_waiting + 1,
                 waiting_readers_list := r.waiting_readers_list ++ [t.id],
                 reqLog := r.reqLog ++ [t.id] }
        { t with phase := readerEnterPhase r.mode }
  /- Line 173: `while self.running` is false at the loop head; fall through
  to `_acquire_read_lock` (line 185). -/
  | rPollStopStep {r t} (hp : t.phase = .rPoll) (hr : t.running = false) :
      LocalStep r t r { t with phase := .rAcq1 }
  /- Lines 174-178: read `writers_waiting` under mutex; it is 0, break. -/
  | rPollZeroStep {r t} (hp : t.phase = .rPoll) (hm : 0 < r.mutex)
      (hw : r.writers_waiting = 0) :
      LocalStep r t r { t with phase := .rAcq1 }
  /- Lines 179-181: starvation prevention, elapsed wait exceeded
  `max_wait_time`; break out of the politeness loop. -/
  | rPollStarveStep {r t} (hp : t.phase = .rPoll) (hm : 0 < r.mutex)
      (hsp : r.starvation_prevention = true) :
      LocalStep r t r { t with phase := .rAcq1, aged := true }
  /- Lines 174-183: writers still waiting, sleep and loop again. -/
  | rPollLoopStep {r t} (hp : t.phase = .rPoll) (hm : 0 < r.mutex)
      (hw : r.writers_waiting ≠ 0) (hr : t.running = true) :
      LocalStep r t r t
  /- Lines 183-184: `if not self.running: return` after the sleep — the
  early return that skips `_cleanup_waiting` entirely. -/
  | rPollLeakStep {r t} (hp : t.phase = .rPoll) (hm : 0 < r.mutex)
      (hw : r.writers_waiting ≠ 0) (hr : t.running = false) :
      LocalStep r t r { t with phase := .rDone }
  /- Line 188: `order_lock.acquire(timeout=15)` succeeds. -/
  | rOrderSuccStep {r t} (hp : t.phase = .rOrder) (ho : 0 < r.order_lock) :
      LocalStep r t { r with order_lock := r.order_lock - 1 }
        { t with phase := .rAcq1, ord := true }
  /- Lines 188-190: the order_lock acquisition times out after observing a
  nonpositive value; `_cleanup_waiting(); return`. -/
  | rOrderFailStep {r t} (hp : t.phase = .rOrder) (hz : r.order_lock = 0) :
      LocalStep r t r { t with phase := .rCleanup }
  /- Line 233: `read_try.acquire(timeout=15)` succeeds. -/
  | rAcq1SuccStep {r t} (hp : t.phase = .rAcq1) (h : 0 < r.read_try) :
      LocalStep r t { r with read_try := r.read_try - 1 } { t with phase := .rAcq2 }
  /- Lines 233-234: timeout while the value is observed nonpositive,
  `return False`. -/
  | rAcq1FailStep {r t} (hp : t.phase = .rAcq1) (hz : r.read_try = 0) :
      LocalStep r t r
        { t with phase := if t.ord then .rOrdRel false else .rPost false }
  /- Lines 235, 238-239: `mutex.acquire(timeout=5)` succeeds,
  `readers_count += 1` makes it 1, so keep holding mutex and go wait for
  `write_lock` (line 240). -/
  | rAcq2SuccOneStep {r t} (hp : t.phase = .rAcq2) (hm : 0 < r.mutex)
      (hc : r.readers_count = 0) :
      LocalStep r t
        { r with mutex := r.mutex - 1, readers_count := r.readers_count + 1 }
        { t with phase := .rAcq4, cnt := true }
  /- Lines 235, 238, 245-250: mutex acquired, `readers_count += 1` yields a
  value other than 1 (a reader group already holds `write_lock`), so skip
  the `write_lock` acquisition and finish `_acquire_read_lock` with `True`
  (mutex and read_try released inside the same block). -/
  | rAcq2SuccManyStep {r t} (hp : t.phase = .rAcq2) (hm : 0 < r.mutex)
      (hc : r.readers_count ≠ 0) :
      LocalStep r t
        { r with readers_count := r.readers_count + 1,
                 readers_waiting := r.readers_waiting - 1,
                 waiting_readers_list := r.waiting_readers_list.erase t.id,
                 read_try := r.read_try + 1,
                 admLog := r.admLog ++ [t.id] }
        { t with phase := if t.ord then .rOrdRel true else .rPost true,
                 cnt := true }
  /- Lines 235-237: the mutex acquisition times out; release read_try,
  `return False`. -/
  | rAcq2FailStep {r t} (hp : t.phase = .rAcq2) (hz : r.mutex = 0) :
      LocalStep r t { r with read_try := r.read_try + 1 }
        { t with phase := if t.ord then .rOrdRel false else .rPost false }
  /- Lines 240, 245-250: `write_lock.acquire(timeout=15)` succeeds; finish
  `_acquire_read_lock` with `True`. -/
  | rAcq4SuccStep {r t} (hp : t.phase = .rAcq4) (hw : 0 < r.write_lock) :
      LocalStep r t
        { r with write_lock := r.write_lock - 1,
                 readers_waiting := r.readers_waiting - 1,
                 waiting_readers_list := r.waiting_readers_list.erase t.id,
                 mutex := r.mutex + 1, read_try := r.read_try + 1,
                 admLog := r.admLog ++ [t.id] }
        { t with phase := if t.ord then .rOrdRel true else .rPost true }
  /- Lines 240-244: the write_lock acquisition times out; undo the
  increment, release mutex and read_try, `return False`. -/
  | rAcq4FailStep {r t} (hp : t.phase = .rAcq4) (hz : r.write_lock = 0) :
      LocalStep r t
        { r with readers_count := r.readers_count - 1, mutex := r.mutex + 1,
                 read_try := r.read_try + 1 }
        { t with phase := if t.ord then .rOrdRel false else .rPost false,
                 cnt := false }
  /- Line 192: `order_lock.release()` after `_acquire_read_lock` returned. -/
  | rOrdRelStep {r t b} (hp : t.phase = .rOrdRel b) :
      LocalStep r t { r with order_lock := r.order_lock + 1 }
        { t with phase := .rPost b, ord := false }
  /- Lines 197-199: `if not acquired or not self.running:
  self._cleanup_waiting(); return`.  Note: when `acquired` is true this
  path never calls `_release_read_lock`. -/
  | rPostFailStep {r t b} (hp : t.phase = .rPost b)
      (h : b = false ∨ t.running = false) :
      LocalStep r t r { t with phase := .rCleanup }
  /- Line 197 falls through: acquired and still running. -/
  | rPostSuccStep {r t} (hp : t.phase = .rPost true) (hr : t.running = true) :
      LocalStep r t r { t with phase := .rAppend }
  /- Lines 204-210: mutex block appending to `active_readers` and updating
  `max_concurrent_readers`. -/
  | rAppendStep {r t} (hp : t.phase = .rAppend) (hm : 0 < r.mutex) :
      LocalStep r t
        { r with active_readers := r.active_readers ++ [t.id],
                 max_concurrent_readers :=
                   max r.max_concurrent_readers (r.active_readers.length + 1) }
        { t with phase := .rHold }
  /- Lines 213-222: read the data, sleep; both the stopped and the normal
  continuation call `_release_read_lock`. -/
  | rHoldStep {r t} (hp : t.phase = .rHold) :
      LocalStep r t r { t with phase := .rRel }
  /- Lines 252-260: `_release_read_lock` (one mutex block): remove self from
  `active_readers` (guarded membership test), decrement `readers_count`,
  release `write_lock` when it reaches 0, `total_reads += 1`. -/
  | rRelStep {r t} (hp : t.phase = .rRel) (hm : 0 < r.mutex) :
      LocalStep r t
        { r with active_readers := r.active_readers.erase t.id,
                 readers_count := r.readers_count - 1,
                 write_lock := if r.readers_count - 1 = 0 then r.write_lock + 1
                               else r.write_lock,
                 total_reads := r.total_reads + 1 }
        { t with phase := .rDone, cnt := false }
  /- Lines 262-267: `_cleanup_waiting`: clamp-decrement `readers_waiting`,
  remove self from the waiting list. -/
  | rCleanupStep {r t} (hp : t.phase = .rCleanup) (hm : 0 < r.mutex) :
      LocalStep r t
        { r with readers_waiting := max 0 (r.readers_waiting - 1),
                 waiting_readers_list := r.waiting_readers_list.erase t.id }
        { t with phase := .rDone }
  /- Lines 292-295: writer registers as waiting, then dispatches on mode. -/
  | wEnterStep {r t} (hp : t.phase = .wIdle) (hm : 0 < r.mutex) :
      LocalStep r t
        { r with writers_waiting := r.writers_waiting + 1,
                 waiting_writers_list := r.waiting_writers_list ++ [t.id],
                 reqLog := r.reqLog ++ [t.id] }
        { t with phase := writerEnterPhase r.mode }
  /- Line 300: `while self.running` false at the loop head; fall to
  line 336 with `acquired` still false. -/
  | wPollStopStep {r t} (hp : t.phase = .wPoll) (hr : t.running = false) :
      LocalStep r t r { t with phase := .wPost false }
  /- Lines 301-305: read the counters under mutex; both are zero, try the
  locks. -/
  | wPollYesStep {r t} (hp : t.phase = .wPoll) (hm : 0 < r.mutex)
      (hc : r.readers_count = 0) (hw : r.readers_waiting = 0) :
      LocalStep r t r { t with phase := .wTryRT }
  /- Lines 301-305: a reader is active or waiting; skip to the
  starvation check. -/
  | wPollNoStep {r t} (hp : t.phase = .wPoll) (hm : 0 < r.mutex)
      (h : r.readers_count ≠ 0 ∨ r.readers_waiting ≠ 0) :
      LocalStep r t r { t with phase := .wPollAfter }
  /- Line 307: `read_try.acquire(timeout=1)` succeeds. -/
  | wTryRTSuccStep {r t} (hp : t.phase = .wTryRT) (h : 0 < r.read_try) :
      LocalStep r t { r with read_try := r.read_try - 1 }
        { t with phase := .wTryWL, wrt := true }
  /- Line 307: timeout; fall to the starvation check. -/
  | wTryRTFailStep {r t} (hp : t.phase = .wTryRT) (hz : r.read_try = 0) :
      LocalStep r t r { t with phase := .wPollAfter }
  /- Line 308: `write_lock.acquire(timeout=1)` succeeds. -/
  | wTryWLSuccStep {r t} (hp : t.phase = .wTryWL) (h : 0 < r.write_lock) :
      LocalStep r t { r with write_lock := r.write_lock - 1 }
        { t with phase := .wTryMux, wwl := true }
  /- Lines 308, 321: timeout; release read_try (line 321), fall through. -/
  | wTryWLFailStep {r t} (hp : t.phase = .wTryWL) (hz : r.write_lock = 0) :
      LocalStep r t { r with read_try := r.read_try + 1 }
        { t with phase := .wPollAfter, wrt := false }
  /- Lines 309-317: `mutex.acquire()` (blocking), no reader joined:
  deregister from waiting, `acquired = True`, break. -/
  | wTryMuxYesStep {r t} (hp : t.phase = .wTryMux) (hm : 0 < r.mutex)
      (hw : r.readers_waiting = 0) :
      LocalStep r t
        { r with writers_waiting := r.writers_waiting - 1,
                 waiting_writers_list := r.waiting_writers_list.erase t.id,
                 admLog := r.admLog ++ [t.id] }
        { t with phase := .wPost true }
  /- Lines 318-321: a new reader joined; release everything and loop. -/
  | wTryMuxNoStep {r t} (hp : t.phase = .wTryMux) (hm : 0 < r.mutex)
      (hw : r.readers_waiting ≠ 0) :
      LocalStep r t
        { r with write_lock := r.write_lock + 1, read_try := r.read_try + 1 }
        { t with phase := .wPollAfter, wwl := false, wrt := false }
  /- Lines 322-324: starvation prevention — the writer's wait exceeded
  `max_wait_time`; `break` with `acquired` still false. -/
  | wPollStarveStep {r t} (hp : t.phase = .wPollAfter)
      (hsp : r.starvation_prevention = true) :
      LocalStep r t r { t with phase := .wPost false, aged := true }
  /- Lines 325-327: sleep and loop again. -/
  | wPollLoopStep {r t} (hp : t.phase = .wPollAfter) (hr : t.running = true) :
      LocalStep r t r { t with phase := .wPoll }
  /- Lines 326-327: `if not self.running: return` — the early return that
  skips `_cleanup_waiting` entirely. -/
  | wPollLeakStep {r t} (hp : t.phase = .wPollAfter) (hr : t.running = false) :
      LocalStep r t r { t with phase := .wDone }
  /- Line 329: `order_lock.acquire(timeout=20)` succeeds. -/
  | wOrderSuccStep {r t} (hp : t.phase = .wOrder) (ho : 0 < r.order_lock) :
      LocalStep r t { r with order_lock := r.order_lock - 1 }
        { t with phase := .wAcq1, ord := true }
  /- Lines 329-331: timeout; `_cleanup_waiting(); return`. -/
  | wOrderFailStep {r t} (hp : t.phase = .wOrder) (hz : r.order_lock = 0) :
      LocalStep r t r { t with phase := .wCleanup }
  /- Line 368: `read_try.acquire(timeout=20)` succeeds. -/
  | wAcq1SuccStep {r t} (hp : t.phase = .wAcq1) (h : 0 < r.read_try) :
      LocalStep r t { r with read_try := r.read_try - 1 }
        { t with phase := .wAcq2, wrt := true }
  /- Lines 368-369: timeout, `return False`. -/
  | wAcq1FailStep {r t} (hp : t.phase = .wAcq1) (hz : r.read_try = 0) :
      LocalStep r t r
        { t with phase := if t.ord then .wOrdRel false else .wPost false }
  /- Line 370: `write_lock.acquire(timeout=20)` succeeds. -/
  | wAcq2SuccStep {r t} (hp : t.phase = .wAcq2) (h : 0 < r.write_lock) :
      LocalStep r t { r with write_lock := r.write_lock - 1 }
        { t with phase := .wAcq3, wwl := true }
  /- Lines 370-372: timeout; release read_try, `return False`. -/
  | wAcq2FailStep {r t} (hp : t.phase = .wAcq2) (hz : r.write_lock = 0) :
      LocalStep r t { r with read_try := r.read_try + 1 }
        { t with phase := if t.ord then .wOrdRel false else .wPost false,
                 wrt := false }
  /- Lines 373-378: mutex block deregistering from waiting; `return True`. -/
  | wAcq3Step {r t} (hp : t.phase = .wAcq3) (hm : 0 < r.mutex) :
      LocalStep r t
        { r with writers_waiting := r.writers_waiting - 1,
                 waiting_writers_list := r.waiting_writers_list.erase t.id,
                 admLog := r.admLog ++ [t.id] }
        { t with phase := if t.ord then .wOrdRel true else .wPost true }
  /- Line 333: `order_lock.release()`. -/
  | wOrdRelStep {r t b} (hp : t.phase = .wOrdRel b) :
      LocalStep r t { r with order_lock := r.order_lock + 1 }
        { t with phase := .wPost b, ord := false }
  /- Lines 336-338: `if not acquired or not self.running:
  self._cleanup_waiting(); return`.  When `acquired` is true this path
  never calls `_release_write_lock`. -/
  | wPostFailStep {r t b} (hp : t.phase = .wPost b)
      (h : b = false ∨ t.running = false) :
      LocalStep r t r { t with phase := .wCleanup }
  /- Line 336 falls through. -/
  | wPostSuccStep {r t} (hp : t.phase = .wPost true) (hr : t.running = true) :
      LocalStep r t r { t with phase := .wWrite }
  /- Lines 343-346: `active_writer = id; data += 1`. -/
  | wWriteStep {r t} (hp : t.phase = .wWrite) :
      LocalStep r t
        { r with active_writer := some t.id, data := r.data + 1 }
        { t with phase := .wHold }
  /- Lines 353-359: sleep; both continuations call `_release_write_lock`. -/
  | wHoldStep {r t} (hp : t.phase = .wHold) :
      LocalStep r t r { t with phase := .wRel }
  /- Lines 380-384: `_release_write_lock`: clear `active_writer`,
  `total_writes += 1`, release `write_lock` and `read_try`. -/
  | wRelStep {r t} (hp : t.phase = .wRel) :
      LocalStep r t
        { r with active_writer := none, total_writes := r.total_writes + 1,
                 write_lock := r.write_lock + 1, read_try := r.read_try + 1 }
        { t with phase := .wDone, wwl := false, wrt := false }
  /- Lines 386-391: `_cleanup_waiting`. -/
  | wCleanupStep {r t} (hp : t.phase = .wCleanup) (hm : 0 < r.mutex) :
      LocalStep r t
        { r with writers_waiting := max 0 (r.writers_waiting - 1),
                 waiting_writers_list := r.waiting_writers_list.erase t.id }
        { t with phase := .wDone }
  /- `stop()` (lines 269-270, 393-394): the UI may clear the `running` flag
  of any thread at any time. -/
  | stopFlagStep {r t} : LocalStep r t r { t with running := false }

/-- A global configuration: the shared resource and the spawned threads. -/
structure Config where
  res : Res
  thr : List Thread
deriving DecidableEq

/-- The interleaving semantics: one thread takes one `LocalStep`, the
others are unchanged. -/
inductive Step : Config → Config → Prop
  | mk {r r' : Res} {t t' : Thread} (l m : List Thread)
      (h : LocalStep r t r' t') :
      Step ⟨r, l ++ t :: m⟩ ⟨r', l ++ t' :: m⟩

/-- Reachability under any interleaving. -/
def Reachable : Config → Config → Prop := Relation.ReflTransGen Step

/-- An initial thread pool: every thread is at its entry point, running,
holding nothing, and thread ids are pairwise distinct (as assigned by
`MainWindow.next_id` within a run). -/
def InitTs (ts : List Thread) : Prop :=
  (∀ t ∈ ts, (t.phase = Phase.rIdle ∨ t.phase = Phase.wIdle) ∧
      t.running = true ∧ t.ord = false ∧ t.wrt = false ∧ t.wwl = false ∧
      t.cnt = false ∧ t.aged = false) ∧
  (ts.map Thread.id).Nodup

instance (ts : List Thread) : Decidable (InitTs ts) := by
  unfold InitTs; infer_instance

/-! ## Invariant bookkeeping predicates -/

/-- The thread currently holds `mutex` across a blocking wait (only the
first-reader `write_lock` wait at line 240 does this). -/
def isA4 (t : Thread) : Bool :=
  match t.phase with
  | .rAcq4 => true
  | _ => false

/-- The thread has an outstanding `readers_count` contribution. -/
def cntB (t : Thread) : Bool := t.cnt

/-- The thread has an outstanding `readers_count` contribution and is past
the first-reader `write_lock` acquisition, i.e. the reader group owns the
`write_lock` token on its behalf. -/
def cntAway (t : Thread) : Bool := t.cnt && !(isA4 t)

/-- The thread is a writer holding the `write_lock` token. -/
def wwlB (t : Thread) : Bool := t.wwl

/-- The thread holds the `order_lock` token. -/
def ordB (t : Thread) : Bool := t.ord

/-- The thread is a writer inside its critical section: it has executed
`data += 1` (line 345) and not yet `_release_write_lock`. -/
def inCSW (t : Thread) : Bool :=
  match t.phase with
  | .wHold => true
  | .wRel => true
  | _ => false

/-- Per-thread sanity of the token flags at each program point (which
tokens a thread holds is a function of where it is in the code). -/
def flagsOK (t : Thread) : Bool :=
  match t.phase with
  | .rIdle => !t.ord && !t.cnt && !t.wwl
  | .rPoll => !t.ord && !t.cnt && !t.wwl
  | .rOrder => !t.ord && !t.cnt && !t.wwl
  | .rAcq1 => !t.cnt && !t.wwl
  | .rAcq2 => !t.cnt && !t.wwl
  | .rAcq4 => t.cnt && !t.wwl
  | .rOrdRel b => t.ord && (t.cnt == b) && !t.wwl
  | .rPost b => !t.ord && (t.cnt == b) && !t.wwl
  | .rAppend => !t.ord && t.cnt && !t.wwl
  | .rHold => !t.ord && t.cnt && !t.wwl
  | .rRel => !t.ord && t.cnt && !t.wwl
  | .rCleanup => !t.ord && !t.wwl
  | .rDone => !t.ord && !t.wwl
  | .wIdle => !t.ord && !t.cnt && !t.wwl
  | .wPoll => !t.ord && !t.cnt && !t.wwl
  | .wTryRT => !t.ord && !t.cnt && !t.wwl
  | .wTryWL => !t.ord && !t.cnt && !t.wwl
  | .wTryMux => !t.ord && !t.cnt && t.wwl
  | .wPollAfter => !t.ord && !t.cnt && !t.wwl
  | .wOrder => !t.ord && !t.cnt && !t.wwl
  | .wAcq1 => !t.cnt && !t.wwl
  | .wAcq2 => !t.cnt && !t.wwl
  | .wAcq3 => !t.cnt && t.wwl
  | .wOrdRel b => t.ord && !t.cnt && (t.wwl == b)
  | .wPost b => !t.ord && !t.cnt && (t.wwl == b)
  | .wWrite => !t.ord && !t.cnt && t.wwl
  | .wHold => !t.ord && !t.cnt && t.wwl
  | .wRel => !t.ord && !t.cnt && t.wwl
  | .wCleanup => !t.ord && !t.cnt
  | .wDone => !t.ord && !t.cnt

/-- The inductive invariant of the system.  The three token equations state
that each semaphore value plus the tokens held by threads is the initial
value 1; `write_lock`'s equation also counts the token owned collectively
by the current reader group (`cntAway`). -/
structure Inv (c : Config) : Prop where
  hmutex : c.res.mutex + c.thr.countP isA4 = 1
  hwl : c.res.write_lock + c.thr.countP wwlB + min (c.thr.countP cntAway) 1 = 1
  hord : c.res.order_lock + c.thr.countP ordB = 1
  hcount : c.res.readers_count = (c.thr.countP cntB : Int)
  ha4cnt : c.thr.countP cntB = 1 ∨ c.thr.countP isA4 = 0
  hflags : ∀ t ∈ c.thr, flagsOK t = true
  hids : (c.thr.map Thread.id).Nodup
  har : c.res.active_readers.Nodup ∧
        ∀ a ∈ c.res.active_readers, ∃ t ∈ c.thr,
          t.id = a ∧ (t.phase = Phase.rHold ∨ t.phase = Phase.rRel)
  haw : ∀ w, c.res.active_writer = some w → ∃ t ∈ c.thr,
          t.id = w ∧ (t.phase = Phase.wHold ∨ t.phase = Phase.wRel)
  hdata : c.res.data = c.res.total_writes + (c.thr.countP inCSW : Int)

/-- The safety property of claim C1, phrased on the observable state: at
most one writer holds write admission, and the `active_readers` list and
the `active_writer` field are never simultaneously populated. -/
def MutexOK (c : Config) : Prop :=
  c.thr.countP wwlB ≤ 1 ∧
  ¬(c.res.active_readers ≠ [] ∧ c.res.active_writer ≠ none)

instance (c : Config) : Decidable (MutexOK c) := by
  unfold MutexOK; infer_instance

/-- The FIFO-fairness property of claim C3 over the history fields: whenever
worker `a` registered its request before worker `b` and `b` has been
admitted, `a` has been admitted no later than `b`. -/
def FifoOK (r : Res) : Prop :=
  ∀ a ∈ r.reqLog, ∀ b ∈ r.reqLog,
    r.reqLog.indexOf a < r.reqLog.indexOf b → b ∈ r.admLog →
    a ∈ r.admLog ∧ r.admLog.indexOf a ≤ r.admLog.indexOf b

instance (r : Res) : Decidable (FifoOK r) := by
  unfold FifoOK; infer_instance

/-- Initial configuration for the C3 scenario: fair mode, a reader with
id 1 and a writer with id 2. -/
def c3Start : Config :=
  ⟨initRes Mode.fair true,
   [⟨1, Phase.rIdle, true, false, false, false, false, false⟩,
    ⟨2, Phase.wIdle, true, false, false, false, false, false⟩]⟩

/-- A reachable configuration of the C3 scenario in which the reader
registered its request first (reqLog = [1, 2]) but the writer won
`order_lock` and was admitted first (admLog = [2]) while the reader is
still blocked on `order_lock`. -/
def c3End : Config :=
  ⟨{ initRes Mode.fair true with
      readers_waiting := 1,
      waiting_readers_list := [1],
      order_lock := 0,
      read_try := 0,
      write_lock := 0,
      reqLog := [1, 2],
      admLog := [2] },
   [⟨1, Phase.rOrder, true, false, false, false, false, false⟩,
    ⟨2, Phase.wOrdRel true, true, true, true, true, false, false⟩]⟩

/-- Initial configuration for the C2 scenario: readers-priority mode with
starvation prevention (the defaults), a reader with id 1 and a writer with
id 2. -/
def c2Start : Config :=
  ⟨initRes Mode.readers true,
   [⟨1, Phase.rIdle, true, false, false, false, false, false⟩,
    ⟨2, Phase.wIdle, true, false, false, false, false, false⟩]⟩

/-- Final configuration of the C2 scenario: the reader was admitted and
held the resource; the writer registered as waiting, observed
`readers_active != 0` at line 305 and reached the sleep at line 325;
`stop()` was invoked during the sleep and the thread returned at line 327,
skipping `_cleanup_waiting`; the reader then finished normally.  Both
threads have terminated, yet `writers_waiting = 1` and the writer's id is
still queued. -/
def c2End : Config :=
  ⟨{ initRes Mode.readers true with
      total_reads := 1,
      writers_waiting := 1,
      waiting_writers_list := [2],
      max_concurrent_readers := 1,
      reqLog := [1, 2],
      admLog := [1] },
   [⟨1, Phase.rDone, true, false, false, false, false, false⟩,
    ⟨2, Phase.wDone, false, false, false, false, false, false⟩]⟩

/-- Initial configuration for the C4 scenario: readers-priority mode with
starvation prevention, a reader with id 1 and a writer with id 2. -/
def c4Start : Config :=
  ⟨initRes Mode.readers true,
   [⟨1, Phase.rIdle, true, false, false, false, false, false⟩,
    ⟨2, Phase.wIdle, true, false, false, false, false, false⟩]⟩

/-- Final configuration of the C4 scenario: the reader is admitted and
holding; the writer waited past `max_wait_time` (ghost flag `aged`), broke
out of its loop with `acquired` still false (lines 322-324), cleaned up and
terminated without ever being admitted. -/
def c4End : Config :=
  ⟨{ initRes Mode.readers true with
      readers_count := 1,
      write_lock := 0,
      active_readers := [1],
      max_concurrent_readers := 1,
      reqLog := [1, 2],
      admLog := [1] },
   [⟨1, Phase.rHold, true, false, false, false, true, false⟩,
    ⟨2, Phase.wDone, true, false, false, false, false, true⟩]⟩

/-- The C4 claim as stated, over the model: every writer that has aged past
the starvation threshold (ghost flag `aged`) and has terminated must have
been admitted (appear in `admLog`). -/
def c4AgedAdmitted : Prop :=
  ∀ c : Config, Reachable c4Start c → ∀ t ∈ c.thr, t.aged = true →
    t.phase = Phase.wDone → t.id ∈ c.res.admLog

/-- The C5 claim as stated, over the model: in writers mode, a running
reader leaves its waiting loop (toward `_acquire_read_lock`) only when no
writer is waiting. -/
def c5ReaderWaits : Prop :=
  ∀ (r : Res) (t : Thread) (r' : Res) (t' : Thread),
    LocalStep r t r' t' → r.mode = Mode.writers → t.phase = Phase.rPoll →
    t.running = true → t'.phase = Phase.rAcq1 → r.writers_waiting = 0

/-- The second half of the C5 claim as stated, over the model: in writers
mode, `writers_waiting` is decremented only after a writer is admitted —
any step that decreases it puts the stepping worker's id into the
admission log. -/
def c5DecOnlyOnAdmission : Prop :=
  ∀ (r : Res) (t : Thread) (r' : Res) (t' : Thread),
    LocalStep r t r' t' → r.mode = Mode.writers →
    r'.writers_waiting < r.writers_waiting → t.id ∈ r'.admLog

/-! ## Counting helpers -/

theorem countP_mid (p : Thread → Bool) (l m : List Thread) (t : Thread) :
    (l ++ t :: m).countP p = l.countP p + m.countP p + (if p t then 1 else 0) := by
  rw [List.countP_append, List.countP_cons]
  omega

theorem countP_mid_congr (p : Thread → Bool) (l m : List Thread) {t t' : Thread}
    (h : p t' = p t) :
    (l ++ t' :: m).countP p = (l ++ t :: m).countP p := by
  rw [countP_mid, countP_mid, h]

theorem mem_mid {x t : Thread} {l m : List Thread} :
    x ∈ l ++ t :: m ↔ x ∈ l ∨ x = t ∨ x ∈ m := by
  simp

theorem self_mem_mid {t : Thread} {l m : List Thread} : t ∈ l ++ t :: m := by
  simp

theorem flags_mid {l m : List Thread} {t t' : Thread}
    (h : ∀ x ∈ l ++ t :: m, flagsOK x = true) (h' : flagsOK t' = true) :
    ∀ x ∈ l ++ t' :: m, flagsOK x = true := by
  intro x hx
  rcases mem_mid.1 hx with h1 | h2 | h3
  · exact h x (mem_mid.2 (Or.inl h1))
  · exact h2 ▸ h'
  · exact h x (mem_mid.2 (Or.inr (Or.inr h3)))

theorem ids_mid {l m : List Thread} {t t' : Thread}
    (h : ((l ++ t :: m).map Thread.id).Nodup) (hid : t'.id = t.id) :
    ((l ++ t' :: m).map Thread.id).Nodup := by
  simpa [hid] using h

theorem exists_mid {P : Thread → Prop} {l m : List Thread} {t t' : Thread}
    (h : ∃ x ∈ l ++ t :: m, P x) (ht : P t → P t') :
    ∃ x ∈ l ++ t' :: m, P x := by
  obtain ⟨x, hx, hPx⟩ := h
  rcases mem_mid.1 hx with h1 | h2 | h3
  · exact ⟨x, mem_mid.2 (Or.inl h1), hPx⟩
  · exact ⟨t', self_mem_mid, ht (h2 ▸ hPx)⟩
  · exact ⟨x, mem_mid.2 (Or.inr (Or.inr h3)), hPx⟩

theorem id_inj {ts : List Thread} (h : (ts.map Thread.id).Nodup) :
    ∀ x ∈ ts, ∀ y ∈ ts, x.id = y.id → x = y :=
  fun x hx y hy hxy => List.inj_on_of_nodup_map h hx hy hxy

theorem har_mid {l m : List Thread} {t t' : Thread} {ar : List Nat}
    (h : ar.Nodup ∧ ∀ a ∈ ar, ∃ x ∈ l ++ t :: m,
        x.id = a ∧ (x.phase = Phase.rHold ∨ x.phase = Phase.rRel))
    (hid : t'.id = t.id)
    (ht : t.phase = Phase.rHold ∨ t.phase = Phase.rRel →
          t'.phase = Phase.rHold ∨ t'.phase = Phase.rRel) :
    ar.Nodup ∧ ∀ a ∈ ar, ∃ x ∈ l ++ t' :: m,
        x.id = a ∧ (x.phase = Phase.rHold ∨ x.phase = Phase.rRel) :=
  ⟨h.1, fun a ha => exists_mid (h.2 a ha) (fun hP => ⟨hid.trans hP.1, ht hP.2⟩)⟩

theorem haw_mid {l m : List Thread} {t t' : Thread} {aw : Option Nat}
    (h : ∀ w, aw = some w → ∃ x ∈ l ++ t :: m,
        x.id = w ∧ (x.phase = Phase.wHold ∨ x.phase = Phase.wRel))
    (hid : t'.id = t.id)
    (ht : t.phase = Phase.wHold ∨ t.phase = Phase.wRel →
          t'.phase = Phase.wHold ∨ t'.phase = Phase.wRel) :
    ∀ w, aw = some w → ∃ x ∈ l ++ t' :: m,
        x.id = w ∧ (x.phase = Phase.wHold ∨ x.phase = Phase.wRel) :=
  fun w hw => exists_mid (h w hw) (fun hP => ⟨hid.trans hP.1, ht hP.2⟩)

theorem countP_away_le (ts : List Thread) : ts.countP cntAway ≤ ts.countP cntB := by
  apply List.countP_mono_left
  intro a _ h
  simp [cntAway] at h
  simp [cntB, h.1]

theorem countP_away_eq {ts : List Thread} (h : ts.countP isA4 = 0) :
    ts.countP cntAway = ts.countP cntB := by
  apply List.countP_congr
  intro a ha
  have h2 := List.countP_eq_zero.1 h a ha
  simp only [Bool.not_eq_true] at h2
  simp only [cntAway, cntB, h2, Bool.not_false, Bool.and_true]

/-! ## Invariant preservation -/

/-- Frame rule: a step that leaves every invariant-relevant field of the
resource unchanged and does not change the value of any counted predicate
on the stepping thread preserves the invariant. -/
theorem inv_frame {r r' : Res} {t t' : Thread} {l m : List Thread}
    (inv : Inv ⟨r, l ++ t :: m⟩)
    (hid : t'.id = t.id)
    (e1 : r'.mutex = r.mutex) (e2 : r'.write_lock = r.write_lock)
    (e3 : r'.order_lock = r.order_lock) (e4 : r'.readers_count = r.readers_count)
    (e5 : r'.data = r.data) (e6 : r'.total_writes = r.total_writes)
    (e7 : r'.active_writer = r.active_writer)
    (e8 : r'.active_readers = r.active_readers)
    (p1 : isA4 t' = isA4 t) (p2 : cntB t' = cntB t) (p3 : cntAway t' = cntAway t)
    (p4 : wwlB t' = wwlB t) (p5 : ordB t' = ordB t) (p6 : inCSW t' = inCSW t)
    (pF : flagsOK t' = true)
    (pHR : t.phase = Phase.rHold ∨ t.phase = Phase.rRel →
           t'.phase = Phase.rHold ∨ t'.phase = Phase.rRel)
    (pHW : t.phase = Phase.wHold ∨ t.phase = Phase.wRel →
           t'.phase = Phase.wHold ∨ t'.phase = Phase.wRel) :
    Inv ⟨r', l ++ t' :: m⟩ := by
  obtain ⟨i1, i2, i3, i4, i5, i6, i7, i8, i9, i10⟩ := inv
  refine ⟨?_, ?_, ?_, ?_, ?_, ?_, ?_, ?_, ?_, ?_⟩
  · rw [e1, countP_mid_congr _ _ _ p1]; exact i1
  · rw [e2, countP_mid_congr _ _ _ p4, countP_mid_congr _ _ _ p3]; exact i2
  · rw [e3, countP_mid_congr _ _ _ p5]; exact i3
  · rw [e4, countP_mid_congr _ _ _ p2]; exact i4
  · rw [countP_mid_congr _ _ _ p2, countP_mid_congr _ _ _ p1]; exact i5
  · exact flags_mid i6 pF
  · exact ids_mid i7 hid
  · refine ⟨e8 ▸ i8.1, ?_⟩
    intro a ha
    rw [e8] at ha
    exact exists_mid (i8.2 a ha) (fun hP => ⟨hid.trans hP.1, pHR hP.2⟩)
  · intro w hw
    rw [e7] at hw
    exact exists_mid (i9 w hw) (fun hP => ⟨hid.trans hP.1, pHW hP.2⟩)
  · rw [e5, e6, countP_mid_congr _ _ _ p6]; exact i10


set_option maxHeartbeats 4000000

theorem local_inv {r r' : Res} {t t' : Thread} {l m : List Thread}
    (hl : LocalStep r t r' t') (inv : Inv ⟨r, l ++ t :: m⟩) :
    Inv ⟨r', l ++ t' :: m⟩ := by
  have ft : flagsOK t = true := inv.hflags t self_mem_mid
  cases hl with
  | rEnterStep hp hm =>
    simp [flagsOK, hp] at ft
    exact inv_frame inv rfl rfl rfl rfl rfl rfl rfl rfl rfl
      (by cases r.mode <;> simp [isA4, readerEnterPhase, hp])
      rfl
      (by cases r.mode <;> simp [cntAway, isA4, readerEnterPhase, hp])
      rfl rfl
      (by cases r.mode <;> simp [inCSW, readerEnterPhase, hp])
      (by cases r.mode <;> simp [flagsOK, readerEnterPhase, ft])
      (by simp [hp]) (by simp [hp])
  | rPollStopStep hp hr =>
    simp [flagsOK, hp] at ft
    exact inv_frame inv rfl rfl rfl rfl rfl rfl rfl rfl rfl
      (by simp [isA4, hp]) rfl (by simp [cntAway, isA4, hp]) rfl rfl
      (by simp [inCSW, hp])
      (by simp [flagsOK, ft])
      (by simp [hp]) (by simp [hp])
  | rPollZeroStep hp hm hw =>
    simp [flagsOK, hp] at ft
    exact inv_frame inv rfl rfl rfl rfl rfl rfl rfl rfl rfl
      (by simp [isA4, hp]) rfl (by simp [cntAway, isA4, hp]) rfl rfl
      (by simp [inCSW, hp])
      (by simp [flagsOK, ft])
      (by simp [hp]) (by simp [hp])
  | rPollStarveStep hp hm hsp =>
    simp [flagsOK, hp] at ft
    exact inv_frame inv rfl rfl rfl rfl rfl rfl rfl rfl rfl
      (by simp [isA4, hp]) rfl (by simp [cntAway, isA4, hp]) rfl rfl
      (by simp [inCSW, hp])
      (by simp [flagsOK, ft])
      (by simp [hp]) (by simp [hp])
  | rPollLoopStep hp hm hw hr => exact inv
  | rPollLeakStep hp hm hw hr =>
    simp [flagsOK, hp] at ft
    exact inv_frame inv rfl rfl rfl rfl rfl rfl rfl rfl rfl
      (by simp [isA4, hp]) rfl (by simp [cntAway, isA4, hp]) rfl rfl
      (by simp [inCSW, hp])
      (by simp [flagsOK, ft])
      (by simp [hp]) (by simp [hp])
  | rOrderSuccStep hp ho =>
    simp [flagsOK, hp] at ft
    obtain ⟨i1, i2, i3, i4, i5, i6, i7, i8, i9, i10⟩ := inv
    rw [countP_mid isA4 l m] at i1
    rw [countP_mid wwlB l m, countP_mid cntAway l m] at i2
    rw [countP_mid ordB l m] at i3
    rw [countP_mid cntB l m] at i4
    rw [countP_mid cntB l m, countP_mid isA4 l m] at i5
    rw [countP_mid inCSW l m] at i10
    try simp only [isA4, wwlB, cntAway, ordB, cntB, inCSW, hp, ft, Bool.false_eq_true, Bool.true_eq_false, if_false, if_true, Bool.not_true, Bool.not_false, Bool.and_true, Bool.and_false, Bool.true_and, Bool.false_and, eq_self_iff_true] at i1
    try simp only [isA4, wwlB, cntAway, ordB, cntB, inCSW, hp, ft, Bool.false_eq_true, Bool.true_eq_false, if_false, if_true, Bool.not_true, Bool.not_false, Bool.and_true, Bool.and_false, Bool.true_and, Bool.false_and, eq_self_iff_true] at i2
    try simp only [isA4, wwlB, cntAway, ordB, cntB, inCSW, hp, ft, Bool.false_eq_true, Bool.true_eq_false, if_false, if_true, Bool.not_true, Bool.not_false, Bool.and_true, Bool.and_false, Bool.true_and, Bool.false_and, eq_self_iff_true] at i3
    try simp only [isA4, wwlB, cntAway, ordB, cntB, inCSW, hp, ft, Bool.false_eq_true, Bool.true_eq_false, if_false, if_true, Bool.not_true, Bool.not_false, Bool.and_true, Bool.and_false, Bool.true_and, Bool.false_and, eq_self_iff_true] at i4
    try simp only [isA4, wwlB, cntAway, ordB, cntB, inCSW, hp, ft, Bool.false_eq_true, Bool.true_eq_false, if_false, if_true, Bool.not_true, Bool.not_false, Bool.and_true, Bool.and_false, Bool.true_and, Bool.false_and, eq_self_iff_true] at i5
    try simp only [isA4, wwlB, cntAway, ordB, cntB, inCSW, hp, ft, Bool.false_eq_true, Bool.true_eq_false, if_false, if_true, Bool.not_true, Bool.not_false, Bool.and_true, Bool.and_false, Bool.true_and, Bool.false_and, eq_self_iff_true] at i10
    refine ⟨?_, ?_, ?_, ?_, ?_, ?_, ?_, ?_, ?_, ?_⟩
    · rw [countP_mid isA4 l m]
      try simp only [isA4, wwlB, cntAway, ordB, cntB, inCSW, hp, ft, Bool.false_eq_true, Bool.true_eq_false, if_false, if_true, Bool.not_true, Bool.not_false, Bool.and_true, Bool.and_false, Bool.true_and, Bool.false_and, eq_self_iff_true]
      omega
    · rw [countP_mid wwlB l m, countP_mid cntAway l m]
      try simp only [isA4, wwlB, cntAway, ordB, cntB, inCSW, hp, ft, Bool.false_eq_true, Bool.true_eq_false, if_false, if_true, Bool.not_true, Bool.not_false, Bool.and_true, Bool.and_false, Bool.true_and, Bool.false_and, eq_self_iff_true]
      omega
    · rw [countP_mid ordB l m]
      try simp only [isA4, wwlB, cntAway, ordB, cntB, inCSW, hp, ft, Bool.false_eq_true, Bool.true_eq_false, if_false, if_true, Bool.not_true, Bool.not_false, Bool.and_true, Bool.and_false, Bool.true_and, Bool.false_and, eq_self_iff_true]
      omega
    · rw [countP_mid cntB l m]
      try simp only [isA4, wwlB, cntAway, ordB, cntB, inCSW, hp, ft, Bool.false_eq_true, Bool.true_eq_false, if_false, if_true, Bool.not_true, Bool.not_false, Bool.and_true, Bool.and_false, Bool.true_and, Bool.false_and, eq_self_iff_true]
      omega
    · rw [countP_mid cntB l m, countP_mid isA4 l m]
      try simp only [isA4, wwlB, cntAway, ordB, cntB, inCSW, hp, ft, Bool.false_eq_true, Bool.true_eq_false, if_false, if_true, Bool.not_true, Bool.not_false, Bool.and_true, Bool.and_false, Bool.true_and, Bool.false_and, eq_self_iff_true]
      omega
    · exact flags_mid i6 (by simp [flagsOK, ft])
    · exact ids_mid i7 rfl
    · exact har_mid i8 rfl (by simp [hp])
    · exact haw_mid i9 rfl (by simp [hp])
    · rw [countP_mid inCSW l m]
      try simp only [isA4, wwlB, cntAway, ordB, cntB, inCSW, hp, ft, Bool.false_eq_true, Bool.true_eq_false, if_false, if_true, Bool.not_true, Bool.not_false, Bool.and_true, Bool.and_false, Bool.true_and, Bool.false_and, eq_self_iff_true]
      omega
  | rOrderFailStep hp hz =>
    simp [flagsOK, hp] at ft
    exact inv_frame inv rfl rfl rfl rfl rfl rfl rfl rfl rfl
      (by simp [isA4, hp]) rfl (by simp [cntAway, isA4, hp]) rfl rfl
      (by simp [inCSW, hp])
      (by simp [flagsOK, ft])
      (by simp [hp]) (by simp [hp])
  | rAcq1SuccStep hp h =>
    simp [flagsOK, hp] at ft
    exact inv_frame inv rfl rfl rfl rfl rfl rfl rfl rfl rfl
      (by simp [isA4, hp]) rfl (by simp [cntAway, isA4, hp]) rfl rfl
      (by simp [inCSW, hp])
      (by simp [flagsOK, ft])
      (by simp [hp]) (by simp [hp])
  | rAcq1FailStep hp hz =>
    simp [flagsOK, hp] at ft
    exact inv_frame inv rfl rfl rfl rfl rfl rfl rfl rfl rfl
      (by cases ht : t.ord <;> simp [isA4, hp, ht])
      rfl
      (by cases ht : t.ord <;> simp [cntAway, isA4, hp, ht])
      rfl rfl
      (by cases ht : t.ord <;> simp [inCSW, hp, ht])
      (by cases ht : t.ord <;> simp [flagsOK, ht, ft])
      (by simp [hp]) (by simp [hp])
  | rAcq2SuccOneStep hp hm hc =>
    simp [flagsOK, hp] at ft
    obtain ⟨i1, i2, i3, i4, i5, i6, i7, i8, i9, i10⟩ := inv
    rw [countP_mid isA4 l m] at i1
    rw [countP_mid wwlB l m, countP_mid cntAway l m] at i2
    rw [countP_mid ordB l m] at i3
    rw [countP_mid cntB l m] at i4
    rw [countP_mid cntB l m, countP_mid isA4 l m] at i5
    rw [countP_mid inCSW l m] at i10
    try simp only [isA4, wwlB, cntAway, ordB, cntB, inCSW, hp, ft, Bool.false_eq_true, Bool.true_eq_false, if_false, if_true, Bool.not_true, Bool.not_false, Bool.and_true, Bool.and_false, Bool.true_and, Bool.false_and, eq_self_iff_true] at i1
    try simp only [isA4, wwlB, cntAway, ordB, cntB, inCSW, hp, ft, Bool.false_eq_true, Bool.true_eq_false, if_false, if_true, Bool.not_true, Bool.not_false, Bool.and_true, Bool.and_false, Bool.true_and, Bool.false_and, eq_self_iff_true] at i2
    try simp only [isA4, wwlB, cntAway, ordB, cntB, inCSW, hp, ft, Bool.false_eq_true, Bool.true_eq_false, if_false, if_true, Bool.not_true, Bool.not_false, Bool.and_true, Bool.and_false, Bool.true_and, Bool.false_and, eq_self_iff_true] at i3
    try simp only [isA4, wwlB, cntAway, ordB, cntB, inCSW, hp, ft, Bool.false_eq_true, Bool.true_eq_false, if_false, if_true, Bool.not_true, Bool.not_false, Bool.and_true, Bool.and_false, Bool.true_and, Bool.false_and, eq_self_iff_true] at i4
    try simp only [isA4, wwlB, cntAway, ordB, cntB, inCSW, hp, ft, Bool.false_eq_true, Bool.true_eq_false, if_false, if_true, Bool.not_true, Bool.not_false, Bool.and_true, Bool.and_false, Bool.true_and, Bool.false_and, eq_self_iff_true] at i5
    try simp only [isA4, wwlB, cntAway, ordB, cntB, inCSW, hp, ft, Bool.false_eq_true, Bool.true_eq_false, if_false, if_true, Bool.not_true, Bool.not_false, Bool.and_true, Bool.and_false, Bool.true_and, Bool.false_and, eq_self_iff_true] at i10
    refine ⟨?_, ?_, ?_, ?_, ?_, ?_, ?_, ?_, ?_, ?_⟩
    · rw [countP_mid isA4 l m]
      try simp only [isA4, wwlB, cntAway, ordB, cntB, inCSW, hp, ft, Bool.false_eq_true, Bool.true_eq_false, if_false, if_true, Bool.not_true, Bool.not_false, Bool.and_true, Bool.and_false, Bool.true_and, Bool.false_and, eq_self_iff_true]
      omega
    · rw [countP_mid wwlB l m, countP_mid cntAway l m]
      try simp only [isA4, wwlB, cntAway, ordB, cntB, inCSW, hp, ft, Bool.false_eq_true, Bool.true_eq_false, if_false, if_true, Bool.not_true, Bool.not_false, Bool.and_true, Bool.and_false, Bool.true_and, Bool.false_and, eq_self_iff_true]
      omega
    · rw [countP_mid ordB l m]
      try simp only [isA4, wwlB, cntAway, ordB, cntB, inCSW, hp, ft, Bool.false_eq_true, Bool.true_eq_false, if_false, if_true, Bool.not_true, Bool.not_false, Bool.and_true, Bool.and_false, Bool.true_and, Bool.false_and, eq_self_iff_true]
      omega
    · rw [countP_mid cntB l m]
      try simp only [isA4, wwlB, cntAway, ordB, cntB, inCSW, hp, ft, Bool.false_eq_true, Bool.true_eq_false, if_false, if_true, Bool.not_true, Bool.not_false, Bool.and_true, Bool.and_false, Bool.true_and, Bool.false_and, eq_self_iff_true]
      omega
    · rw [countP_mid cntB l m, countP_mid isA4 l m]
      try simp only [isA4, wwlB, cntAway, ordB, cntB, inCSW, hp, ft, Bool.false_eq_true, Bool.true_eq_false, if_false, if_true, Bool.not_true, Bool.not_false, Bool.and_true, Bool.and_false, Bool.true_and, Bool.false_and, eq_self_iff_true]
      omega
    · exact flags_mid i6 (by simp [flagsOK, ft])
    · exact ids_mid i7 rfl
    · exact har_mid i8 rfl (by simp [hp])
    · exact haw_mid i9 rfl (by simp [hp])
    · rw [countP_mid inCSW l m]
      try simp only [isA4, wwlB, cntAway, ordB, cntB, inCSW, hp, ft, Bool.false_eq_true, Bool.true_eq_false, if_false, if_true, Bool.not_true, Bool.not_false, Bool.and_true, Bool.and_false, Bool.true_and, Bool.false_and, eq_self_iff_true]
      omega
  | rAcq2SuccManyStep hp hm hc =>
    simp [flagsOK, hp] at ft
    obtain ⟨i1, i2, i3, i4, i5, i6, i7, i8, i9, i10⟩ := inv
    rw [countP_mid isA4 l m] at i1
    rw [countP_mid wwlB l m, countP_mid cntAway l m] at i2
    rw [countP_mid ordB l m] at i3
    rw [countP_mid cntB l m] at i4
    rw [countP_mid cntB l m, countP_mid isA4 l m] at i5
    rw [countP_mid inCSW l m] at i10
    try simp only [isA4, wwlB, cntAway, ordB, cntB, inCSW, hp, ft, Bool.false_eq_true, Bool.true_eq_false, if_false, if_true, Bool.not_true, Bool.not_false, Bool.and_true, Bool.and_false, Bool.true_and, Bool.false_and, eq_self_iff_true] at i1
    try simp only [isA4, wwlB, cntAway, ordB, cntB, inCSW, hp, ft, Bool.false_eq_true, Bool.true_eq_false, if_false, if_true, Bool.not_true, Bool.not_false, Bool.and_true, Bool.and_false, Bool.true_and, Bool.false_and, eq_self_iff_true] at i2
    try simp only [isA4, wwlB, cntAway, ordB, cntB, inCSW, hp, ft, Bool.false_eq_true, Bool.true_eq_false, if_false, if_true, Bool.not_true, Bool.not_false, Bool.and_true, Bool.and_false, Bool.true_and, Bool.false_and, eq_self_iff_true] at i3
    try simp only [isA4, wwlB, cntAway, ordB, cntB, inCSW, hp, ft, Bool.false_eq_true, Bool.true_eq_false, if_false, if_true, Bool.not_true, Bool.not_false, Bool.and_true, Bool.and_false, Bool.true_and, Bool.false_and, eq_self_iff_true] at i4
    try simp only [isA4, wwlB, cntAway, ordB, cntB, inCSW, hp, ft, Bool.false_eq_true, Bool.true_eq_false, if_false, if_true, Bool.not_true, Bool.not_false, Bool.and_true, Bool.and_false, Bool.true_and, Bool.false_and, eq_self_iff_true] at i5
    try simp only [isA4, wwlB, cntAway, ordB, cntB, inCSW, hp, ft, Bool.false_eq_true, Bool.true_eq_false, if_false, if_true, Bool.not_true, Bool.not_false, Bool.and_true, Bool.and_false, Bool.true_and, Bool.false_and, eq_self_iff_true] at i10
    have hle1 := countP_away_le l
    have hle2 := countP_away_le m
    have heq1 : l.countP cntAway = l.countP cntB := countP_away_eq (by omega)
    have heq2 : m.countP cntAway = m.countP cntB := countP_away_eq (by omega)
    cases ht : t.ord
    case false =>
      try simp only [ht, Bool.false_eq_true, Bool.true_eq_false, if_false, if_true, eq_self_iff_true] at i3
      refine ⟨?_, ?_, ?_, ?_, ?_, ?_, ?_, ?_, ?_, ?_⟩
      · rw [countP_mid isA4 l m]
        try simp only [isA4, wwlB, cntAway, ordB, cntB, inCSW, hp, ft, ht, Bool.false_eq_true, Bool.true_eq_false, if_false, if_true, Bool.not_true, Bool.not_false, Bool.and_true, Bool.and_false, Bool.true_and, Bool.false_and, eq_self_iff_true]
        omega
      · rw [countP_mid wwlB l m, countP_mid cntAway l m]
        try simp only [isA4, wwlB, cntAway, ordB, cntB, inCSW, hp, ft, ht, Bool.false_eq_true, Bool.true_eq_false, if_false, if_true, Bool.not_true, Bool.not_false, Bool.and_true, Bool.and_false, Bool.true_and, Bool.false_and, eq_self_iff_true]
        omega
      · rw [countP_mid ordB l m]
        try simp only [isA4, wwlB, cntAway, ordB, cntB, inCSW, hp, ft, ht, Bool.false_eq_true, Bool.true_eq_false, if_false, if_true, Bool.not_true, Bool.not_false, Bool.and_true, Bool.and_false, Bool.true_and, Bool.false_and, eq_self_iff_true]
        omega
      · rw [countP_mid cntB l m]
        try simp only [isA4, wwlB, cntAway, ordB, cntB, inCSW, hp, ft, ht, Bool.false_eq_true, Bool.true_eq_false, if_false, if_true, Bool.not_true, Bool.not_false, Bool.and_true, Bool.and_false, Bool.true_and, Bool.false_and, eq_self_iff_true]
        omega
      · rw [countP_mid cntB l m, countP_mid isA4 l m]
        try simp only [isA4, wwlB, cntAway, ordB, cntB, inCSW, hp, ft, ht, Bool.false_eq_true, Bool.true_eq_false, if_false, if_true, Bool.not_true, Bool.not_false, Bool.and_true, Bool.and_false, Bool.true_and, Bool.false_and, eq_self_iff_true]
        omega
      · exact flags_mid i6 (by simp [flagsOK, ht, ft])
      · exact ids_mid i7 rfl
      · exact har_mid i8 rfl (by simp [hp])
      · exact haw_mid i9 rfl (by simp [hp])
      · rw [countP_mid inCSW l m]
        try simp only [isA4, wwlB, cntAway, ordB, cntB, inCSW, hp, ft, ht, Bool.false_eq_true, Bool.true_eq_false, if_false, if_true, Bool.not_true, Bool.not_false, Bool.and_true, Bool.and_false, Bool.true_and, Bool.false_and, eq_self_iff_true]
        omega
    case true =>
      try simp only [ht, Bool.false_eq_true, Bool.true_eq_false, if_false, if_true, eq_self_iff_true] at i3
      refine ⟨?_, ?_, ?_, ?_, ?_, ?_, ?_, ?_, ?_, ?_⟩
      · rw [countP_mid isA4 l m]
        try simp only [isA4, wwlB, cntAway, ordB, cntB, inCSW, hp, ft, ht, Bool.false_eq_true, Bool.true_eq_false, if_false, if_true, Bool.not_true, Bool.not_false, Bool.and_true, Bool.and_false, Bool.true_and, Bool.false_and, eq_self_iff_true]
        omega
      · rw [countP_mid wwlB l m, countP_mid cntAway l m]
        try simp only [isA4, wwlB, cntAway, ordB, cntB, inCSW, hp, ft, ht, Bool.false_eq_true, Bool.true_eq_false, if_false, if_true, Bool.not_true, Bool.not_false, Bool.and_true, Bool.and_false, Bool.true_and, Bool.false_and, eq_self_iff_true]
        omega
      · rw [countP_mid ordB l m]
        try simp only [isA4, wwlB, cntAway, ordB, cntB, inCSW, hp, ft, ht, Bool.false_eq_true, Bool.true_eq_false, if_false, if_true, Bool.not_true, Bool.not_false, Bool.and_true, Bool.and_false, Bool.true_and, Bool.false_and, eq_self_iff_true]
        omega
      · rw [countP_mid cntB l m]
        try simp only [isA4, wwlB, cntAway, ordB, cntB, inCSW, hp, ft, ht, Bool.false_eq_true, Bool.true_eq_false, if_false, if_true, Bool.not_true, Bool.not_false, Bool.and_true, Bool.and_false, Bool.true_and, Bool.false_and, eq_self_iff_true]
        omega
      · rw [countP_mid cntB l m, countP_mid isA4 l m]
        try simp only [isA4, wwlB, cntAway, ordB, cntB, inCSW, hp, ft, ht, Bool.false_eq_true, Bool.true_eq_false, if_false, if_true, Bool.not_true, Bool.not_false, Bool.and_true, Bool.and_false, Bool.true_and, Bool.false_and, eq_self_iff_true]
        omega
      · exact flags_mid i6 (by simp [flagsOK, ht, ft])
      · exact ids_mid i7 rfl
      · exact har_mid i8 rfl (by simp [hp])
      · exact haw_mid i9 rfl (by simp [hp])
      · rw [countP_mid inCSW l m]
        try simp only [isA4, wwlB, cntAway, ordB, cntB, inCSW, hp, ft, ht, Bool.false_eq_true, Bool.true_eq_false, if_false, if_true, Bool.not_true, Bool.not_false, Bool.and_true, Bool.and_false, Bool.true_and, Bool.false_and, eq_self_iff_true]
        omega
  | rAcq2FailStep hp hz =>
    simp [flagsOK, hp] at ft
    exact inv_frame inv rfl rfl rfl rfl rfl rfl rfl rfl rfl
      (by cases ht : t.ord <;> simp [isA4, hp, ht])
      rfl
      (by cases ht : t.ord <;> simp [cntAway, isA4, hp, ht])
      rfl rfl
      (by cases ht : t.ord <;> simp [inCSW, hp, ht])
      (by cases ht : t.ord <;> simp [flagsOK, ht, ft])
      (by simp [hp]) (by simp [hp])
  | rAcq4SuccStep hp hw =>
    simp [flagsOK, hp] at ft
    obtain ⟨i1, i2, i3, i4, i5, i6, i7, i8, i9, i10⟩ := inv
    rw [countP_mid isA4 l m] at i1
    rw [countP_mid wwlB l m, countP_mid cntAway l m] at i2
    rw [countP_mid ordB l m] at i3
    rw [countP_mid cntB l m] at i4
    rw [countP_mid cntB l m, countP_mid isA4 l m] at i5
    rw [countP_mid inCSW l m] at i10
    try simp only [isA4, wwlB, cntAway, ordB, cntB, inCSW, hp, ft, Bool.false_eq_true, Bool.true_eq_false, if_false, if_true, Bool.not_true, Bool.not_false, Bool.and_true, Bool.and_false, Bool.true_and, Bool.false_and, eq_self_iff_true] at i1
    try simp only [isA4, wwlB, cntAway, ordB, cntB, inCSW, hp, ft, Bool.false_eq_true, Bool.true_eq_false, if_false, if_true, Bool.not_true, Bool.not_false, Bool.and_true, Bool.and_false, Bool.true_and, Bool.false_and, eq_self_iff_true] at i2
    try simp only [isA4, wwlB, cntAway, ordB, cntB, inCSW, hp, ft, Bool.false_eq_true, Bool.true_eq_false, if_false, if_true, Bool.not_true, Bool.not_false, Bool.and_true, Bool.and_false, Bool.true_and, Bool.false_and, eq_self_iff_true] at i3
    try simp only [isA4, wwlB, cntAway, ordB, cntB, inCSW, hp, ft, Bool.false_eq_true, Bool.true_eq_false, if_false, if_true, Bool.not_true, Bool.not_false, Bool.and_true, Bool.and_false, Bool.true_and, Bool.false_and, eq_self_iff_true] at i4
    try simp only [isA4, wwlB, cntAway, ordB, cntB, inCSW, hp, ft, Bool.false_eq_true, Bool.true_eq_false, if_false, if_true, Bool.not_true, Bool.not_false, Bool.and_true, Bool.and_false, Bool.true_and, Bool.false_and, eq_self_iff_true] at i5
    try simp only [isA4, wwlB, cntAway, ordB, cntB, inCSW, hp, ft, Bool.false_eq_true, Bool.true_eq_false, if_false, if_true, Bool.not_true, Bool.not_false, Bool.and_true, Bool.and_false, Bool.true_and, Bool.false_and, eq_self_iff_true] at i10
    have hle1 := countP_away_le l
    have hle2 := countP_away_le m
    cases ht : t.ord
    case false =>
      try simp only [ht, Bool.false_eq_true, Bool.true_eq_false, if_false, if_true, eq_self_iff_true] at i3
      refine ⟨?_, ?_, ?_, ?_, ?_, ?_, ?_, ?_, ?_, ?_⟩
      · rw [countP_mid isA4 l m]
        try simp only [isA4, wwlB, cntAway, ordB, cntB, inCSW, hp, ft, ht, Bool.false_eq_true, Bool.true_eq_false, if_false, if_true, Bool.not_true, Bool.not_false, Bool.and_true, Bool.and_false, Bool.true_and, Bool.false_and, eq_self_iff_true]
        omega
      · rw [countP_mid wwlB l m, countP_mid cntAway l m]
        try simp only [isA4, wwlB, cntAway, ordB, cntB, inCSW, hp, ft, ht, Bool.false_eq_true, Bool.true_eq_false, if_false, if_true, Bool.not_true, Bool.not_false, Bool.and_true, Bool.and_false, Bool.true_and, Bool.false_and, eq_self_iff_true]
        omega
      · rw [countP_mid ordB l m]
        try simp only [isA4, wwlB, cntAway, ordB, cntB, inCSW, hp, ft, ht, Bool.false_eq_true, Bool.true_eq_false, if_false, if_true, Bool.not_true, Bool.not_false, Bool.and_true, Bool.and_false, Bool.true_and, Bool.false_and, eq_self_iff_true]
        omega
      · rw [countP_mid cntB l m]
        try simp only [isA4, wwlB, cntAway, ordB, cntB, inCSW, hp, ft, ht, Bool.false_eq_true, Bool.true_eq_false, if_false, if_true, Bool.not_true, Bool.not_false, Bool.and_true, Bool.and_false, Bool.true_and, Bool.false_and, eq_self_iff_true]
        omega
      · rw [countP_mid cntB l m, countP_mid isA4 l m]
        try simp only [isA4, wwlB, cntAway, ordB, cntB, inCSW, hp, ft, ht, Bool.false_eq_true, Bool.true_eq_false, if_false, if_true, Bool.not_true, Bool.not_false, Bool.and_true, Bool.and_false, Bool.true_and, Bool.false_and, eq_self_iff_true]
        omega
      · exact flags_mid i6 (by simp [flagsOK, ht, ft])
      · exact ids_mid i7 rfl
      · exact har_mid i8 rfl (by simp [hp])
      · exact haw_mid i9 rfl (by simp [hp])
      · rw [countP_mid inCSW l m]
        try simp only [isA4, wwlB, cntAway, ordB, cntB, inCSW, hp, ft, ht, Bool.false_eq_true, Bool.true_eq_false, if_false, if_true, Bool.not_true, Bool.not_false, Bool.and_true, Bool.and_false, Bool.true_and, Bool.false_and, eq_self_iff_true]
        omega
    case true =>
      try simp only [ht, Bool.false_eq_true, Bool.true_eq_false, if_false, if_true, eq_self_iff_true] at i3
      refine ⟨?_, ?_, ?_, ?_, ?_, ?_, ?_, ?_, ?_, ?_⟩
      · rw [countP_mid isA4 l m]
        try simp only [isA4, wwlB, cntAway, ordB, cntB, inCSW, hp, ft, ht, Bool.false_eq_true, Bool.true_eq_false, if_false, if_true, Bool.not_true, Bool.not_false, Bool.and_true, Bool.and_false, Bool.true_and, Bool.false_and, eq_self_iff_true]
        omega
      · rw [countP_mid wwlB l m, countP_mid cntAway l m]
        try simp only [isA4, wwlB, cntAway, ordB, cntB, inCSW, hp, ft, ht, Bool.false_eq_true, Bool.true_eq_false, if_false, if_true, Bool.not_true, Bool.not_false, Bool.and_true, Bool.and_false, Bool.true_and, Bool.false_and, eq_self_iff_true]
        omega
      · rw [countP_mid ordB l m]
        try simp only [isA4, wwlB, cntAway, ordB, cntB, inCSW, hp, ft, ht, Bool.false_eq_true, Bool.true_eq_false, if_false, if_true, Bool.not_true, Bool.not_false, Bool.and_true, Bool.and_false, Bool.true_and, Bool.false_and, eq_self_iff_true]
        omega
      · rw [countP_mid cntB l m]
        try simp only [isA4, wwlB, cntAway, ordB, cntB, inCSW, hp, ft, ht, Bool.false_eq_true, Bool.true_eq_false, if_false, if_true, Bool.not_true, Bool.not_false, Bool.and_true, Bool.and_false, Bool.true_and, Bool.false_and, eq_self_iff_true]
        omega
      · rw [countP_mid cntB l m, countP_mid isA4 l m]
        try simp only [isA4, wwlB, cntAway, ordB, cntB, inCSW, hp, ft, ht, Bool.false_eq_true, Bool.true_eq_false, if_false, if_true, Bool.not_true, Bool.not_false, Bool.and_true, Bool.and_false, Bool.true_and, Bool.false_and, eq_self_iff_true]
        omega
      · exact flags_mid i6 (by simp [flagsOK, ht, ft])
      · exact ids_mid i7 rfl
      · exact har_mid i8 rfl (by simp [hp])
      · exact haw_mid i9 rfl (by simp [hp])
      · rw [countP_mid inCSW l m]
        try simp only [isA4, wwlB, cntAway, ordB, cntB, inCSW, hp, ft, ht, Bool.false_eq_true, Bool.true_eq_false, if_false, if_true, Bool.not_true, Bool.not_false, Bool.and_true, Bool.and_false, Bool.true_and, Bool.false_and, eq_self_iff_true]
        omega
  | rAcq4FailStep hp hz =>
    simp [flagsOK, hp] at ft
    obtain ⟨i1, i2, i3, i4, i5, i6, i7, i8, i9, i10⟩ := inv
    rw [countP_mid isA4 l m] at i1
    rw [countP_mid wwlB l m, countP_mid cntAway l m] at i2
    rw [countP_mid ordB l m] at i3
    rw [countP_mid cntB l m] at i4
    rw [countP_mid cntB l m, countP_mid isA4 l m] at i5
    rw [countP_mid inCSW l m] at i10
    try simp only [isA4, wwlB, cntAway, ordB, cntB, inCSW, hp, ft, Bool.false_eq_true, Bool.true_eq_false, if_false, if_true, Bool.not_true, Bool.not_false, Bool.and_true, Bool.and_false, Bool.true_and, Bool.false_and, eq_self_iff_true] at i1
    try simp only [isA4, wwlB, cntAway, ordB, cntB, inCSW, hp, ft, Bool.false_eq_true, Bool.true_eq_false, if_false, if_true, Bool.not_true, Bool.not_false, Bool.and_true, Bool.and_false, Bool.true_and, Bool.false_and, eq_self_iff_true] at i2
    try simp only [isA4, wwlB, cntAway, ordB, cntB, inCSW, hp, ft, Bool.false_eq_true, Bool.true_eq_false, if_false, if_true, Bool.not_true, Bool.not_false, Bool.and_true, Bool.and_false, Bool.true_and, Bool.false_and, eq_self_iff_true] at i3
    try simp only [isA4, wwlB, cntAway, ordB, cntB, inCSW, hp, ft, Bool.false_eq_true, Bool.true_eq_false, if_false, if_true, Bool.not_true, Bool.not_false, Bool.and_true, Bool.and_false, Bool.true_and, Bool.false_and, eq_self_iff_true] at i4
    try simp only [isA4, wwlB, cntAway, ordB, cntB, inCSW, hp, ft, Bool.false_eq_true, Bool.true_eq_false, if_false, if_true, Bool.not_true, Bool.not_false, Bool.and_true, Bool.and_false, Bool.true_and, Bool.false_and, eq_self_iff_true] at i5
    try simp only [isA4, wwlB, cntAway, ordB, cntB, inCSW, hp, ft, Bool.false_eq_true, Bool.true_eq_false, if_false, if_true, Bool.not_true, Bool.not_false, Bool.and_true, Bool.and_false, Bool.true_and, Bool.false_and, eq_self_iff_true] at i10
    have hle1 := countP_away_le l
    have hle2 := countP_away_le m
    cases ht : t.ord
    case false =>
      try simp only [ht, Bool.false_eq_true, Bool.true_eq_false, if_false, if_true, eq_self_iff_true] at i3
      refine ⟨?_, ?_, ?_, ?_, ?_, ?_, ?_, ?_, ?_, ?_⟩
      · rw [countP_mid isA4 l m]
        try simp only [isA4, wwlB, cntAway, ordB, cntB, inCSW, hp, ft, ht, Bool.false_eq_true, Bool.true_eq_false, if_false, if_true, Bool.not_true, Bool.not_false, Bool.and_true, Bool.and_false, Bool.true_and, Bool.false_and, eq_self_iff_true]
        omega
      · rw [countP_mid wwlB l m, countP_mid cntAway l m]
        try simp only [isA4, wwlB, cntAway, ordB, cntB, inCSW, hp, ft, ht, Bool.false_eq_true, Bool.true_eq_false, if_false, if_true, Bool.not_true, Bool.not_false, Bool.and_true, Bool.and_false, Bool.true_and, Bool.false_and, eq_self_iff_true]
        omega
      · rw [countP_mid ordB l m]
        try simp only [isA4, wwlB, cntAway, ordB, cntB, inCSW, hp, ft, ht, Bool.false_eq_true, Bool.true_eq_false, if_false, if_true, Bool.not_true, Bool.not_false, Bool.and_true, Bool.and_false, Bool.true_and, Bool.false_and, eq_self_iff_true]
        omega
      · rw [countP_mid cntB l m]
        try simp only [isA4, wwlB, cntAway, ordB, cntB, inCSW, hp, ft, ht, Bool.false_eq_true, Bool.true_eq_false, if_false, if_true, Bool.not_true, Bool.not_false, Bool.and_true, Bool.and_false, Bool.true_and, Bool.false_and, eq_self_iff_true]
        omega
      · rw [countP_mid cntB l m, countP_mid isA4 l m]
        try simp only [isA4, wwlB, cntAway, ordB, cntB, inCSW, hp, ft, ht, Bool.false_eq_true, Bool.true_eq_false, if_false, if_true, Bool.not_true, Bool.not_false, Bool.and_true, Bool.and_false, Bool.true_and, Bool.false_and, eq_self_iff_true]
        omega
      · exact flags_mid i6 (by simp [flagsOK, ht, ft])
      · exact ids_mid i7 rfl
      · exact har_mid i8 rfl (by simp [hp])
      · exact haw_mid i9 rfl (by simp [hp])
      · rw [countP_mid inCSW l m]
        try simp only [isA4, wwlB, cntAway, ordB, cntB, inCSW, hp, ft, ht, Bool.false_eq_true, Bool.true_eq_false, if_false, if_true, Bool.not_true, Bool.not_false, Bool.and_true, Bool.and_false, Bool.true_and, Bool.false_and, eq_self_iff_true]
        omega
    case true =>
      try simp only [ht, Bool.false_eq_true, Bool.true_eq_false, if_false, if_true, eq_self_iff_true] at i3
      refine ⟨?_, ?_, ?_, ?_, ?_, ?_, ?_, ?_, ?_, ?_⟩
      · rw [countP_mid isA4 l m]
        try simp only [isA4, wwlB, cntAway, ordB, cntB, inCSW, hp, ft, ht, Bool.false_eq_true, Bool.true_eq_false, if_false, if_true, Bool.not_true, Bool.not_false, Bool.and_true, Bool.and_false, Bool.true_and, Bool.false_and, eq_self_iff_true]
        omega
      · rw [countP_mid wwlB l m, countP_mid cntAway l m]
        try simp only [isA4, wwlB, cntAway, ordB, cntB, inCSW, hp, ft, ht, Bool.false_eq_true, Bool.true_eq_false, if_false, if_true, Bool.not_true, Bool.not_false, Bool.and_true, Bool.and_false, Bool.true_and, Bool.false_and, eq_self_iff_true]
        omega
      · rw [countP_mid ordB l m]
        try simp only [isA4, wwlB, cntAway, ordB, cntB, inCSW, hp, ft, ht, Bool.false_eq_true, Bool.true_eq_false, if_false, if_true, Bool.not_true, Bool.not_false, Bool.and_true, Bool.and_false, Bool.true_and, Bool.false_and, eq_self_iff_true]
        omega
      · rw [countP_mid cntB l m]
        try simp only [isA4, wwlB, cntAway, ordB, cntB, inCSW, hp, ft, ht, Bool.false_eq_true, Bool.true_eq_false, if_false, if_true, Bool.not_true, Bool.not_false, Bool.and_true, Bool.and_false, Bool.true_and, Bool.false_and, eq_self_iff_true]
        omega
      · rw [countP_mid cntB l m, countP_mid isA4 l m]
        try simp only [isA4, wwlB, cntAway, ordB, cntB, inCSW, hp, ft, ht, Bool.false_eq_true, Bool.true_eq_false, if_false, if_true, Bool.not_true, Bool.not_false, Bool.and_true, Bool.and_false, Bool.true_and, Bool.false_and, eq_self_iff_true]
        omega
      · exact flags_mid i6 (by simp [flagsOK, ht, ft])
      · exact ids_mid i7 rfl
      · exact har_mid i8 rfl (by simp [hp])
      · exact haw_mid i9 rfl (by simp [hp])
      · rw [countP_mid inCSW l m]
        try simp only [isA4, wwlB, cntAway, ordB, cntB, inCSW, hp, ft, ht, Bool.false_eq_true, Bool.true_eq_false, if_false, if_true, Bool.not_true, Bool.not_false, Bool.and_true, Bool.and_false, Bool.true_and, Bool.false_and, eq_self_iff_true]
        omega
  | rOrdRelStep hp =>
    simp [flagsOK, hp] at ft
    obtain ⟨i1, i2, i3, i4, i5, i6, i7, i8, i9, i10⟩ := inv
    rw [countP_mid isA4 l m] at i1
    rw [countP_mid wwlB l m, countP_mid cntAway l m] at i2
    rw [countP_mid ordB l m] at i3
    rw [countP_mid cntB l m] at i4
    rw [countP_mid cntB l m, countP_mid isA4 l m] at i5
    rw [countP_mid inCSW l m] at i10
    try simp only [isA4, wwlB, cntAway, ordB, cntB, inCSW, hp, ft, Bool.false_eq_true, Bool.true_eq_false, if_false, if_true, Bool.not_true, Bool.not_false, Bool.and_true, Bool.and_false, Bool.true_and, Bool.false_and, eq_self_iff_true] at i1
    try simp only [isA4, wwlB, cntAway, ordB, cntB, inCSW, hp, ft, Bool.false_eq_true, Bool.true_eq_false, if_false, if_true, Bool.not_true, Bool.not_false, Bool.and_true, Bool.and_false, Bool.true_and, Bool.false_and, eq_self_iff_true] at i2
    try simp only [isA4, wwlB, cntAway, ordB, cntB, inCSW, hp, ft, Bool.false_eq_true, Bool.true_eq_false, if_false, if_true, Bool.not_true, Bool.not_false, Bool.and_true, Bool.and_false, Bool.true_and, Bool.false_and, eq_self_iff_true] at i3
    try simp only [isA4, wwlB, cntAway, ordB, cntB, inCSW, hp, ft, Bool.false_eq_true, Bool.true_eq_false, if_false, if_true, Bool.not_true, Bool.not_false, Bool.and_true, Bool.and_false, Bool.true_and, Bool.false_and, eq_self_iff_true] at i4
    try simp only [isA4, wwlB, cntAway, ordB, cntB, inCSW, hp, ft, Bool.false_eq_true, Bool.true_eq_false, if_false, if_true, Bool.not_true, Bool.not_false, Bool.and_true, Bool.and_false, Bool.true_and, Bool.false_and, eq_self_iff_true] at i5
    try simp only [isA4, wwlB, cntAway, ordB, cntB, inCSW, hp, ft, Bool.false_eq_true, Bool.true_eq_false, if_false, if_true, Bool.not_true, Bool.not_false, Bool.and_true, Bool.and_false, Bool.true_and, Bool.false_and, eq_self_iff_true] at i10
    refine ⟨?_, ?_, ?_, ?_, ?_, ?_, ?_, ?_, ?_, ?_⟩
    · rw [countP_mid isA4 l m]
      try simp only [isA4, wwlB, cntAway, ordB, cntB, inCSW, hp, ft, Bool.false_eq_true, Bool.true_eq_false, if_false, if_true, Bool.not_true, Bool.not_false, Bool.and_true, Bool.and_false, Bool.true_and, Bool.false_and, eq_self_iff_true]
      omega
    · rw [countP_mid wwlB l m, countP_mid cntAway l m]
      try simp only [isA4, wwlB, cntAway, ordB, cntB, inCSW, hp, ft, Bool.false_eq_true, Bool.true_eq_false, if_false, if_true, Bool.not_true, Bool.not_false, Bool.and_true, Bool.and_false, Bool.true_and, Bool.false_and, eq_self_iff_true]
      omega
    · rw [countP_mid ordB l m]
      try simp only [isA4, wwlB, cntAway, ordB, cntB, inCSW, hp, ft, Bool.false_eq_true, Bool.true_eq_false, if_false, if_true, Bool.not_true, Bool.not_false, Bool.and_true, Bool.and_false, Bool.true_and, Bool.false_and, eq_self_iff_true]
      omega
    · rw [countP_mid cntB l m]
      try simp only [isA4, wwlB, cntAway, ordB, cntB, inCSW, hp, ft, Bool.false_eq_true, Bool.true_eq_false, if_false, if_true, Bool.not_true, Bool.not_false, Bool.and_true, Bool.and_false, Bool.true_and, Bool.false_and, eq_self_iff_true]
      omega
    · rw [countP_mid cntB l m, countP_mid isA4 l m]
      try simp only [isA4, wwlB, cntAway, ordB, cntB, inCSW, hp, ft, Bool.false_eq_true, Bool.true_eq_false, if_false, if_true, Bool.not_true, Bool.not_false, Bool.and_true, Bool.and_false, Bool.true_and, Bool.false_and, eq_self_iff_true]
      omega
    · exact flags_mid i6 (by simp [flagsOK, ft])
    · exact ids_mid i7 rfl
    · exact har_mid i8 rfl (by simp [hp])
    · exact haw_mid i9 rfl (by simp [hp])
    · rw [countP_mid inCSW l m]
      try simp only [isA4, wwlB, cntAway, ordB, cntB, inCSW, hp, ft, Bool.false_eq_true, Bool.true_eq_false, if_false, if_true, Bool.not_true, Bool.not_false, Bool.and_true, Bool.and_false, Bool.true_and, Bool.false_and, eq_self_iff_true]
      omega
  | rPostFailStep hp h =>
    simp [flagsOK, hp] at ft
    exact inv_frame inv rfl rfl rfl rfl rfl rfl rfl rfl rfl
      (by simp [isA4, hp]) rfl (by simp [cntAway, isA4, hp]) rfl rfl
      (by simp [inCSW, hp])
      (by simp [flagsOK, ft])
      (by simp [hp]) (by simp [hp])
  | rPostSuccStep hp hr =>
    simp [flagsOK, hp] at ft
    exact inv_frame inv rfl rfl rfl rfl rfl rfl rfl rfl rfl
      (by simp [isA4, hp]) rfl (by simp [cntAway, isA4, hp]) rfl rfl
      (by simp [inCSW, hp])
      (by simp [flagsOK, ft])
      (by simp [hp]) (by simp [hp])
  | rAppendStep hp hm =>
    simp [flagsOK, hp] at ft
    obtain ⟨i1, i2, i3, i4, i5, i6, i7, i8, i9, i10⟩ := inv
    rw [countP_mid isA4 l m] at i1
    rw [countP_mid wwlB l m, countP_mid cntAway l m] at i2
    rw [countP_mid ordB l m] at i3
    rw [countP_mid cntB l m] at i4
    rw [countP_mid cntB l m, countP_mid isA4 l m] at i5
    rw [countP_mid inCSW l m] at i10
    try simp only [isA4, wwlB, cntAway, ordB, cntB, inCSW, hp, ft, Bool.false_eq_true, Bool.true_eq_false, if_false, if_true, Bool.not_true, Bool.not_false, Bool.and_true, Bool.and_false, Bool.true_and, Bool.false_and, eq_self_iff_true] at i1
    try simp only [isA4, wwlB, cntAway, ordB, cntB, inCSW, hp, ft, Bool.false_eq_true, Bool.true_eq_false, if_false, if_true, Bool.not_true, Bool.not_false, Bool.and_true, Bool.and_false, Bool.true_and, Bool.false_and, eq_self_iff_true] at i2
    try simp only [isA4, wwlB, cntAway, ordB, cntB, inCSW, hp, ft, Bool.false_eq_true, Bool.true_eq_false, if_false, if_true, Bool.not_true, Bool.not_false, Bool.and_true, Bool.and_false, Bool.true_and, Bool.false_and, eq_self_iff_true] at i3
    try simp only [isA4, wwlB, cntAway, ordB, cntB, inCSW, hp, ft, Bool.false_eq_true, Bool.true_eq_false, if_false, if_true, Bool.not_true, Bool.not_false, Bool.and_true, Bool.and_false, Bool.true_and, Bool.false_and, eq_self_iff_true] at i4
    try simp only [isA4, wwlB, cntAway, ordB, cntB, inCSW, hp, ft, Bool.false_eq_true, Bool.true_eq_false, if_false, if_true, Bool.not_true, Bool.not_false, Bool.and_true, Bool.and_false, Bool.true_and, Bool.false_and, eq_self_iff_true] at i5
    try simp only [isA4, wwlB, cntAway, ordB, cntB, inCSW, hp, ft, Bool.false_eq_true, Bool.true_eq_false, if_false, if_true, Bool.not_true, Bool.not_false, Bool.and_true, Bool.and_false, Bool.true_and, Bool.false_and, eq_self_iff_true] at i10
    refine ⟨?_, ?_, ?_, ?_, ?_, ?_, ?_, ?_, ?_, ?_⟩
    · rw [countP_mid isA4 l m]
      try simp only [isA4, wwlB, cntAway, ordB, cntB, inCSW, hp, ft, Bool.false_eq_true, Bool.true_eq_false, if_false, if_true, Bool.not_true, Bool.not_false, Bool.and_true, Bool.and_false, Bool.true_and, Bool.false_and, eq_self_iff_true]
      omega
    · rw [countP_mid wwlB l m, countP_mid cntAway l m]
      try simp only [isA4, wwlB, cntAway, ordB, cntB, inCSW, hp, ft, Bool.false_eq_true, Bool.true_eq_false, if_false, if_true, Bool.not_true, Bool.not_false, Bool.and_true, Bool.and_false, Bool.true_and, Bool.false_and, eq_self_iff_true]
      omega
    · rw [countP_mid ordB l m]
      try simp only [isA4, wwlB, cntAway, ordB, cntB, inCSW, hp, ft, Bool.false_eq_true, Bool.true_eq_false, if_false, if_true, Bool.not_true, Bool.not_false, Bool.and_true, Bool.and_false, Bool.true_and, Bool.false_and, eq_self_iff_true]
      omega
    · rw [countP_mid cntB l m]
      try simp only [isA4, wwlB, cntAway, ordB, cntB, inCSW, hp, ft, Bool.false_eq_true, Bool.true_eq_false, if_false, if_true, Bool.not_true, Bool.not_false, Bool.and_true, Bool.and_false, Bool.true_and, Bool.false_and, eq_self_iff_true]
      omega
    · rw [countP_mid cntB l m, countP_mid isA4 l m]
      try simp only [isA4, wwlB, cntAway, ordB, cntB, inCSW, hp, ft, Bool.false_eq_true, Bool.true_eq_false, if_false, if_true, Bool.not_true, Bool.not_false, Bool.and_true, Bool.and_false, Bool.true_and, Bool.false_and, eq_self_iff_true]
      omega
    · exact flags_mid i6 (by simp [flagsOK, ft])
    · exact ids_mid i7 rfl
    · constructor
      · rw [List.nodup_append]
        refine ⟨i8.1, List.nodup_singleton _, ?_⟩
        intro a ha hmem
        simp at hmem
        obtain ⟨x, hx, hxa, hxp⟩ := i8.2 a ha
        have hxt : x = t := id_inj i7 x hx t self_mem_mid (by rw [hxa, hmem])
        rw [hxt, hp] at hxp
        simp at hxp
      · intro a ha
        rcases List.mem_append.1 ha with h1 | h2
        · exact exists_mid (i8.2 a h1) (fun hP => absurd hP.2 (by simp [hp]))
        · simp at h2
          exact ⟨_, self_mem_mid, by simp [h2], Or.inl rfl⟩
    · exact haw_mid i9 rfl (by simp [hp])
    · rw [countP_mid inCSW l m]
      try simp only [isA4, wwlB, cntAway, ordB, cntB, inCSW, hp, ft, Bool.false_eq_true, Bool.true_eq_false, if_false, if_true, Bool.not_true, Bool.not_false, Bool.and_true, Bool.and_false, Bool.true_and, Bool.false_and, eq_self_iff_true]
      omega
  | rHoldStep hp =>
    simp [flagsOK, hp] at ft
    exact inv_frame inv rfl rfl rfl rfl rfl rfl rfl rfl rfl
      (by simp [isA4, hp]) rfl (by simp [cntAway, isA4, hp]) rfl rfl
      (by simp [inCSW, hp])
      (by simp [flagsOK, ft])
      (fun _ => Or.inr rfl) (by simp [hp])
  | rRelStep hp hm =>
    simp [flagsOK, hp] at ft
    obtain ⟨i1, i2, i3, i4, i5, i6, i7, i8, i9, i10⟩ := inv
    rw [countP_mid isA4 l m] at i1
    rw [countP_mid wwlB l m, countP_mid cntAway l m] at i2
    rw [countP_mid ordB l m] at i3
    rw [countP_mid cntB l m] at i4
    rw [countP_mid cntB l m, countP_mid isA4 l m] at i5
    rw [countP_mid inCSW l m] at i10
    try simp only [isA4, wwlB, cntAway, ordB, cntB, inCSW, hp, ft, Bool.false_eq_true, Bool.true_eq_false, if_false, if_true, Bool.not_true, Bool.not_false, Bool.and_true, Bool.and_false, Bool.true_and, Bool.false_and, eq_self_iff_true] at i1
    try simp only [isA4, wwlB, cntAway, ordB, cntB, inCSW, hp, ft, Bool.false_eq_true, Bool.true_eq_false, if_false, if_true, Bool.not_true, Bool.not_false, Bool.and_true, Bool.and_false, Bool.true_and, Bool.false_and, eq_self_iff_true] at i2
    try simp only [isA4, wwlB, cntAway, ordB, cntB, inCSW, hp, ft, Bool.false_eq_true, Bool.true_eq_false, if_false, if_true, Bool.not_true, Bool.not_false, Bool.and_true, Bool.and_false, Bool.true_and, Bool.false_and, eq_self_iff_true] at i3
    try simp only [isA4, wwlB, cntAway, ordB, cntB, inCSW, hp, ft, Bool.false_eq_true, Bool.true_eq_false, if_false, if_true, Bool.not_true, Bool.not_false, Bool.and_true, Bool.and_false, Bool.true_and, Bool.false_and, eq_self_iff_true] at i4
    try simp only [isA4, wwlB, cntAway, ordB, cntB, inCSW, hp, ft, Bool.false_eq_true, Bool.true_eq_false, if_false, if_true, Bool.not_true, Bool.not_false, Bool.and_true, Bool.and_false, Bool.true_and, Bool.false_and, eq_self_iff_true] at i5
    try simp only [isA4, wwlB, cntAway, ordB, cntB, inCSW, hp, ft, Bool.false_eq_true, Bool.true_eq_false, if_false, if_true, Bool.not_true, Bool.not_false, Bool.and_true, Bool.and_false, Bool.true_and, Bool.false_and, eq_self_iff_true] at i10
    have hle1 := countP_away_le l
    have hle2 := countP_away_le m
    have heq1 : l.countP cntAway = l.countP cntB := countP_away_eq (by omega)
    have heq2 : m.countP cntAway = m.countP cntB := countP_away_eq (by omega)
    refine ⟨?_, ?_, ?_, ?_, ?_, ?_, ?_, ?_, ?_, ?_⟩
    · rw [countP_mid isA4 l m]
      try simp only [isA4, wwlB, cntAway, ordB, cntB, inCSW, hp, ft, Bool.false_eq_true, Bool.true_eq_false, if_false, if_true, Bool.not_true, Bool.not_false, Bool.and_true, Bool.and_false, Bool.true_and, Bool.false_and, eq_self_iff_true]
      omega
    · rw [countP_mid wwlB l m, countP_mid cntAway l m]
      try simp only [isA4, wwlB, cntAway, ordB, cntB, inCSW, hp, ft, Bool.false_eq_true, Bool.true_eq_false, if_false, if_true, Bool.not_true, Bool.not_false, Bool.and_true, Bool.and_false, Bool.true_and, Bool.false_and, eq_self_iff_true]
      split_ifs <;> omega
    · rw [countP_mid ordB l m]
      try simp only [isA4, wwlB, cntAway, ordB, cntB, inCSW, hp, ft, Bool.false_eq_true, Bool.true_eq_false, if_false, if_true, Bool.not_true, Bool.not_false, Bool.and_true, Bool.and_false, Bool.true_and, Bool.false_and, eq_self_iff_true]
      omega
    · rw [countP_mid cntB l m]
      try simp only [isA4, wwlB, cntAway, ordB, cntB, inCSW, hp, ft, Bool.false_eq_true, Bool.true_eq_false, if_false, if_true, Bool.not_true, Bool.not_false, Bool.and_true, Bool.and_false, Bool.true_and, Bool.false_and, eq_self_iff_true]
      omega
    · rw [countP_mid cntB l m, countP_mid isA4 l m]
      try simp only [isA4, wwlB, cntAway, ordB, cntB, inCSW, hp, ft, Bool.false_eq_true, Bool.true_eq_false, if_false, if_true, Bool.not_true, Bool.not_false, Bool.and_true, Bool.and_false, Bool.true_and, Bool.false_and, eq_self_iff_true]
      omega
    · exact flags_mid i6 (by simp [flagsOK, ft])
    · exact ids_mid i7 rfl
    · refine ⟨i8.1.erase _, ?_⟩
      intro a ha
      have hane : a ≠ t.id ∧ a ∈ r.active_readers := (i8.1.mem_erase_iff).1 ha
      obtain ⟨x, hx, hxa, hxp⟩ := i8.2 a hane.2
      rcases mem_mid.1 hx with h1 | h2 | h3
      · exact ⟨x, mem_mid.2 (Or.inl h1), hxa, hxp⟩
      · exact absurd (h2 ▸ hxa) (Ne.symm hane.1)
      · exact ⟨x, mem_mid.2 (Or.inr (Or.inr h3)), hxa, hxp⟩
    · exact haw_mid i9 rfl (by simp [hp])
    · rw [countP_mid inCSW l m]
      try simp only [isA4, wwlB, cntAway, ordB, cntB, inCSW, hp, ft, Bool.false_eq_true, Bool.true_eq_false, if_false, if_true, Bool.not_true, Bool.not_false, Bool.and_true, Bool.and_false, Bool.true_and, Bool.false_and, eq_self_iff_true]
      omega
  | rCleanupStep hp hm =>
    simp [flagsOK, hp] at ft
    exact inv_frame inv rfl rfl rfl rfl rfl rfl rfl rfl rfl
      (by simp [isA4, hp]) rfl (by simp [cntAway, isA4, hp]) rfl rfl
      (by simp [inCSW, hp])
      (by simp [flagsOK, ft])
      (by simp [hp]) (by simp [hp])
  | wEnterStep hp hm =>
    simp [flagsOK, hp] at ft
    exact inv_frame inv rfl rfl rfl rfl rfl rfl rfl rfl rfl
      (by cases r.mode <;> simp [isA4, writerEnterPhase, hp])
      rfl
      (by cases r.mode <;> simp [cntAway, isA4, writerEnterPhase, hp])
      rfl rfl
      (by cases r.mode <;> simp [inCSW, writerEnterPhase, hp])
      (by cases r.mode <;> simp [flagsOK, writerEnterPhase, ft])
      (by simp [hp]) (by simp [hp])
  | wPollStopStep hp hr =>
    simp [flagsOK, hp] at ft
    exact inv_frame inv rfl rfl rfl rfl rfl rfl rfl rfl rfl
      (by simp [isA4, hp]) rfl (by simp [cntAway, isA4, hp]) rfl rfl
      (by simp [inCSW, hp])
      (by simp [flagsOK, ft])
      (by simp [hp]) (by simp [hp])
  | wPollYesStep hp hm hc hw =>
    simp [flagsOK, hp] at ft
    exact inv_frame inv rfl rfl rfl rfl rfl rfl rfl rfl rfl
      (by simp [isA4, hp]) rfl (by simp [cntAway, isA4, hp]) rfl rfl
      (by simp [inCSW, hp])
      (by simp [flagsOK, ft])
      (by simp [hp]) (by simp [hp])
  | wPollNoStep hp hm h =>
    simp [flagsOK, hp] at ft
    exact inv_frame inv rfl rfl rfl rfl rfl rfl rfl rfl rfl
      (by simp [isA4, hp]) rfl (by simp [cntAway, isA4, hp]) rfl rfl
      (by simp [inCSW, hp])
      (by simp [flagsOK, ft])
      (by simp [hp]) (by simp [hp])
  | wTryRTSuccStep hp h =>
    simp [flagsOK, hp] at ft
    exact inv_frame inv rfl rfl rfl rfl rfl rfl rfl rfl rfl
      (by simp [isA4, hp]) rfl (by simp [cntAway, isA4, hp]) rfl rfl
      (by simp [inCSW, hp])
      (by simp [flagsOK, ft])
      (by simp [hp]) (by simp [hp])
  | wTryRTFailStep hp hz =>
    simp [flagsOK, hp] at ft
    exact inv_frame inv rfl rfl rfl rfl rfl rfl rfl rfl rfl
      (by simp [isA4, hp]) rfl (by simp [cntAway, isA4, hp]) rfl rfl
      (by simp [inCSW, hp])
      (by simp [flagsOK, ft])
      (by simp [hp]) (by simp [hp])
  | wTryWLSuccStep hp h =>
    simp [flagsOK, hp] at ft
    obtain ⟨i1, i2, i3, i4, i5, i6, i7, i8, i9, i10⟩ := inv
    rw [countP_mid isA4 l m] at i1
    rw [countP_mid wwlB l m, countP_mid cntAway l m] at i2
    rw [countP_mid ordB l m] at i3
    rw [countP_mid cntB l m] at i4
    rw [countP_mid cntB l m, countP_mid isA4 l m] at i5
    rw [countP_mid inCSW l m] at i10
    try simp only [isA4, wwlB, cntAway, ordB, cntB, inCSW, hp, ft, Bool.false_eq_true, Bool.true_eq_false, if_false, if_true, Bool.not_true, Bool.not_false, Bool.and_true, Bool.and_false, Bool.true_and, Bool.false_and, eq_self_iff_true] at i1
    try simp only [isA4, wwlB, cntAway, ordB, cntB, inCSW, hp, ft, Bool.false_eq_true, Bool.true_eq_false, if_false, if_true, Bool.not_true, Bool.not_false, Bool.and_true, Bool.and_false, Bool.true_and, Bool.false_and, eq_self_iff_true] at i2
    try simp only [isA4, wwlB, cntAway, ordB, cntB, inCSW, hp, ft, Bool.false_eq_true, Bool.true_eq_false, if_false, if_true, Bool.not_true, Bool.not_false, Bool.and_true, Bool.and_false, Bool.true_and, Bool.false_and, eq_self_iff_true] at i3
    try simp only [isA4, wwlB, cntAway, ordB, cntB, inCSW, hp, ft, Bool.false_eq_true, Bool.true_eq_false, if_false, if_true, Bool.not_true, Bool.not_false, Bool.and_true, Bool.and_false, Bool.true_and, Bool.false_and, eq_self_iff_true] at i4
    try simp only [isA4, wwlB, cntAway, ordB, cntB, inCSW, hp, ft, Bool.false_eq_true, Bool.true_eq_false, if_false, if_true, Bool.not_true, Bool.not_false, Bool.and_true, Bool.and_false, Bool.true_and, Bool.false_and, eq_self_iff_true] at i5
    try simp only [isA4, wwlB, cntAway, ordB, cntB, inCSW, hp, ft, Bool.false_eq_true, Bool.true_eq_false, if_false, if_true, Bool.not_true, Bool.not_false, Bool.and_true, Bool.and_false, Bool.true_and, Bool.false_and, eq_self_iff_true] at i10
    refine ⟨?_, ?_, ?_, ?_, ?_, ?_, ?_, ?_, ?_, ?_⟩
    · rw [countP_mid isA4 l m]
      try simp only [isA4, wwlB, cntAway, ordB, cntB, inCSW, hp, ft, Bool.false_eq_true, Bool.true_eq_false, if_false, if_true, Bool.not_true, Bool.not_false, Bool.and_true, Bool.and_false, Bool.true_and, Bool.false_and, eq_self_iff_true]
      omega
    · rw [countP_mid wwlB l m, countP_mid cntAway l m]
      try simp only [isA4, wwlB, cntAway, ordB, cntB, inCSW, hp, ft, Bool.false_eq_true, Bool.true_eq_false, if_false, if_true, Bool.not_true, Bool.not_false, Bool.and_true, Bool.and_false, Bool.true_and, Bool.false_and, eq_self_iff_true]
      omega
    · rw [countP_mid ordB l m]
      try simp only [isA4, wwlB, cntAway, ordB, cntB, inCSW, hp, ft, Bool.false_eq_true, Bool.true_eq_false, if_false, if_true, Bool.not_true, Bool.not_false, Bool.and_true, Bool.and_false, Bool.true_and, Bool.false_and, eq_self_iff_true]
      omega
    · rw [countP_mid cntB l m]
      try simp only [isA4, wwlB, cntAway, ordB, cntB, inCSW, hp, ft, Bool.false_eq_true, Bool.true_eq_false, if_false, if_true, Bool.not_true, Bool.not_false, Bool.and_true, Bool.and_false, Bool.true_and, Bool.false_and, eq_self_iff_true]
      omega
    · rw [countP_mid cntB l m, countP_mid isA4 l m]
      try simp only [isA4, wwlB, cntAway, ordB, cntB, inCSW, hp, ft, Bool.false_eq_true, Bool.true_eq_false, if_false, if_true, Bool.not_true, Bool.not_false, Bool.and_true, Bool.and_false, Bool.true_and, Bool.false_and, eq_self_iff_true]
      omega
    · exact flags_mid i6 (by simp [flagsOK, ft])
    · exact ids_mid i7 rfl
    · exact har_mid i8 rfl (by simp [hp])
    · exact haw_mid i9 rfl (by simp [hp])
    · rw [countP_mid inCSW l m]
      try simp only [isA4, wwlB, cntAway, ordB, cntB, inCSW, hp, ft, Bool.false_eq_true, Bool.true_eq_false, if_false, if_true, Bool.not_true, Bool.not_false, Bool.and_true, Bool.and_false, Bool.true_and, Bool.false_and, eq_self_iff_true]
      omega
  | wTryWLFailStep hp hz =>
    simp [flagsOK, hp] at ft
    exact inv_frame inv rfl rfl rfl rfl rfl rfl rfl rfl rfl
      (by simp [isA4, hp]) rfl (by simp [cntAway, isA4, hp]) rfl rfl
      (by simp [inCSW, hp])
      (by simp [flagsOK, ft])
      (by simp [hp]) (by simp [hp])
  | wTryMuxYesStep hp hm hw =>
    simp [flagsOK, hp] at ft
    exact inv_frame inv rfl rfl rfl rfl rfl rfl rfl rfl rfl
      (by simp [isA4, hp]) rfl (by simp [cntAway, isA4, hp]) rfl rfl
      (by simp [inCSW, hp])
      (by simp [flagsOK, ft])
      (by simp [hp]) (by simp [hp])
  | wTryMuxNoStep hp hm hw =>
    simp [flagsOK, hp] at ft
    obtain ⟨i1, i2, i3, i4, i5, i6, i7, i8, i9, i10⟩ := inv
    rw [countP_mid isA4 l m] at i1
    rw [countP_mid wwlB l m, countP_mid cntAway l m] at i2
    rw [countP_mid ordB l m] at i3
    rw [countP_mid cntB l m] at i4
    rw [countP_mid cntB l m, countP_mid isA4 l m] at i5
    rw [countP_mid inCSW l m] at i10
    try simp only [isA4, wwlB, cntAway, ordB, cntB, inCSW, hp, ft, Bool.false_eq_true, Bool.true_eq_false, if_false, if_true, Bool.not_true, Bool.not_false, Bool.and_true, Bool.and_false, Bool.true_and, Bool.false_and, eq_self_iff_true] at i1
    try simp only [isA4, wwlB, cntAway, ordB, cntB, inCSW, hp, ft, Bool.false_eq_true, Bool.true_eq_false, if_false, if_true, Bool.not_true, Bool.not_false, Bool.and_true, Bool.and_false, Bool.true_and, Bool.false_and, eq_self_iff_true] at i2
    try simp only [isA4, wwlB, cntAway, ordB, cntB, inCSW, hp, ft, Bool.false_eq_true, Bool.true_eq_false, if_false, if_true, Bool.not_true, Bool.not_false, Bool.and_true, Bool.and_false, Bool.true_and, Bool.false_and, eq_self_iff_true] at i3
    try simp only [isA4, wwlB, cntAway, ordB, cntB, inCSW, hp, ft, Bool.false_eq_true, Bool.true_eq_false, if_false, if_true, Bool.not_true, Bool.not_false, Bool.and_true, Bool.and_false, Bool.true_and, Bool.false_and, eq_self_iff_true] at i4
    try simp only [isA4, wwlB, cntAway, ordB, cntB, inCSW, hp, ft, Bool.false_eq_true, Bool.true_eq_false, if_false, if_true, Bool.not_true, Bool.not_false, Bool.and_true, Bool.and_false, Bool.true_and, Bool.false_and, eq_self_iff_true] at i5
    try simp only [isA4, wwlB, cntAway, ordB, cntB, inCSW, hp, ft, Bool.false_eq_true, Bool.true_eq_false, if_false, if_true, Bool.not_true, Bool.not_false, Bool.and_true, Bool.and_false, Bool.true_and, Bool.false_and, eq_self_iff_true] at i10
    refine ⟨?_, ?_, ?_, ?_, ?_, ?_, ?_, ?_, ?_, ?_⟩
    · rw [countP_mid isA4 l m]
      try simp only [isA4, wwlB, cntAway, ordB, cntB, inCSW, hp, ft, Bool.false_eq_true, Bool.true_eq_false, if_false, if_true, Bool.not_true, Bool.not_false, Bool.and_true, Bool.and_false, Bool.true_and, Bool.false_and, eq_self_iff_true]
      omega
    · rw [countP_mid wwlB l m, countP_mid cntAway l m]
      try simp only [isA4, wwlB, cntAway, ordB, cntB, inCSW, hp, ft, Bool.false_eq_true, Bool.true_eq_false, if_false, if_true, Bool.not_true, Bool.not_false, Bool.and_true, Bool.and_false, Bool.true_and, Bool.false_and, eq_self_iff_true]
      omega
    · rw [countP_mid ordB l m]
      try simp only [isA4, wwlB, cntAway, ordB, cntB, inCSW, hp, ft, Bool.false_eq_true, Bool.true_eq_false, if_false, if_true, Bool.not_true, Bool.not_false, Bool.and_true, Bool.and_false, Bool.true_and, Bool.false_and, eq_self_iff_true]
      omega
    · rw [countP_mid cntB l m]
      try simp only [isA4, wwlB, cntAway, ordB, cntB, inCSW, hp, ft, Bool.false_eq_true, Bool.true_eq_false, if_false, if_true, Bool.not_true, Bool.not_false, Bool.and_true, Bool.and_false, Bool.true_and, Bool.false_and, eq_self_iff_true]
      omega
    · rw [countP_mid cntB l m, countP_mid isA4 l m]
      try simp only [isA4, wwlB, cntAway, ordB, cntB, inCSW, hp, ft, Bool.false_eq_true, Bool.true_eq_false, if_false, if_true, Bool.not_true, Bool.not_false, Bool.and_true, Bool.and_false, Bool.true_and, Bool.false_and, eq_self_iff_true]
      omega
    · exact flags_mid i6 (by simp [flagsOK, ft])
    · exact ids_mid i7 rfl
    · exact har_mid i8 rfl (by simp [hp])
    · exact haw_mid i9 rfl (by simp [hp])
    · rw [countP_mid inCSW l m]
      try simp only [isA4, wwlB, cntAway, ordB, cntB, inCSW, hp, ft, Bool.false_eq_true, Bool.true_eq_false, if_false, if_true, Bool.not_true, Bool.not_false, Bool.and_true, Bool.and_false, Bool.true_and, Bool.false_and, eq_self_iff_true]
      omega
  | wPollStarveStep hp hsp =>
    simp [flagsOK, hp] at ft
    exact inv_frame inv rfl rfl rfl rfl rfl rfl rfl rfl rfl
      (by simp [isA4, hp]) rfl (by simp [cntAway, isA4, hp]) rfl rfl
      (by simp [inCSW, hp])
      (by simp [flagsOK, ft])
      (by simp [hp]) (by simp [hp])
  | wPollLoopStep hp hr =>
    simp [flagsOK, hp] at ft
    exact inv_frame inv rfl rfl rfl rfl rfl rfl rfl rfl rfl
      (by simp [isA4, hp]) rfl (by simp [cntAway, isA4, hp]) rfl rfl
      (by simp [inCSW, hp])
      (by simp [flagsOK, ft])
      (by simp [hp]) (by simp [hp])
  | wPollLeakStep hp hr =>
    simp [flagsOK, hp] at ft
    exact inv_frame inv rfl rfl rfl rfl rfl rfl rfl rfl rfl
      (by simp [isA4, hp]) rfl (by simp [cntAway, isA4, hp]) rfl rfl
      (by simp [inCSW, hp])
      (by simp [flagsOK, ft])
      (by simp [hp]) (by simp [hp])
  | wOrderSuccStep hp ho =>
    simp [flagsOK, hp] at ft
    obtain ⟨i1, i2, i3, i4, i5, i6, i7, i8, i9, i10⟩ := inv
    rw [countP_mid isA4 l m] at i1
    rw [countP_mid wwlB l m, countP_mid cntAway l m] at i2
    rw [countP_mid ordB l m] at i3
    rw [countP_mid cntB l m] at i4
    rw [countP_mid cntB l m, countP_mid isA4 l m] at i5
    rw [countP_mid inCSW l m] at i10
    try simp only [isA4, wwlB, cntAway, ordB, cntB, inCSW, hp, ft, Bool.false_eq_true, Bool.true_eq_false, if_false, if_true, Bool.not_true, Bool.not_false, Bool.and_true, Bool.and_false, Bool.true_and, Bool.false_and, eq_self_iff_true] at i1
    try simp only [isA4, wwlB, cntAway, ordB, cntB, inCSW, hp, ft, Bool.false_eq_true, Bool.true_eq_false, if_false, if_true, Bool.not_true, Bool.not_false, Bool.and_true, Bool.and_false, Bool.true_and, Bool.false_and, eq_self_iff_true] at i2
    try simp only [isA4, wwlB, cntAway, ordB, cntB, inCSW, hp, ft, Bool.false_eq_true, Bool.true_eq_false, if_false, if_true, Bool.not_true, Bool.not_false, Bool.and_true, Bool.and_false, Bool.true_and, Bool.false_and, eq_self_iff_true] at i3
    try simp only [isA4, wwlB, cntAway, ordB, cntB, inCSW, hp, ft, Bool.false_eq_true, Bool.true_eq_false, if_false, if_true, Bool.not_true, Bool.not_false, Bool.and_true, Bool.and_false, Bool.true_and, Bool.false_and, eq_self_iff_true] at i4
    try simp only [isA4, wwlB, cntAway, ordB, cntB, inCSW, hp, ft, Bool.false_eq_true, Bool.true_eq_false, if_false, if_true, Bool.not_true, Bool.not_false, Bool.and_true, Bool.and_false, Bool.true_and, Bool.false_and, eq_self_iff_true] at i5
    try simp only [isA4, wwlB, cntAway, ordB, cntB, inCSW, hp, ft, Bool.false_eq_true, Bool.true_eq_false, if_false, if_true, Bool.not_true, Bool.not_false, Bool.and_true, Bool.and_false, Bool.true_and, Bool.false_and, eq_self_iff_true] at i10
    refine ⟨?_, ?_, ?_, ?_, ?_, ?_, ?_, ?_, ?_, ?_⟩
    · rw [countP_mid isA4 l m]
      try simp only [isA4, wwlB, cntAway, ordB, cntB, inCSW, hp, ft, Bool.false_eq_true, Bool.true_eq_false, if_false, if_true, Bool.not_true, Bool.not_false, Bool.and_true, Bool.and_false, Bool.true_and, Bool.false_and, eq_self_iff_true]
      omega
    · rw [countP_mid wwlB l m, countP_mid cntAway l m]
      try simp only [isA4, wwlB, cntAway, ordB, cntB, inCSW, hp, ft, Bool.false_eq_true, Bool.true_eq_false, if_false, if_true, Bool.not_true, Bool.not_false, Bool.and_true, Bool.and_false, Bool.true_and, Bool.false_and, eq_self_iff_true]
      omega
    · rw [countP_mid ordB l m]
      try simp only [isA4, wwlB, cntAway, ordB, cntB, inCSW, hp, ft, Bool.false_eq_true, Bool.true_eq_false, if_false, if_true, Bool.not_true, Bool.not_false, Bool.and_true, Bool.and_false, Bool.true_and, Bool.false_and, eq_self_iff_true]
      omega
    · rw [countP_mid cntB l m]
      try simp only [isA4, wwlB, cntAway, ordB, cntB, inCSW, hp, ft, Bool.false_eq_true, Bool.true_eq_false, if_false, if_true, Bool.not_true, Bool.not_false, Bool.and_true, Bool.and_false, Bool.true_and, Bool.false_and, eq_self_iff_true]
      omega
    · rw [countP_mid cntB l m, countP_mid isA4 l m]
      try simp only [isA4, wwlB, cntAway, ordB, cntB, inCSW, hp, ft, Bool.false_eq_true, Bool.true_eq_false, if_false, if_true, Bool.not_true, Bool.not_false, Bool.and_true, Bool.and_false, Bool.true_and, Bool.false_and, eq_self_iff_true]
      omega
    · exact flags_mid i6 (by simp [flagsOK, ft])
    · exact ids_mid i7 rfl
    · exact har_mid i8 rfl (by simp [hp])
    · exact haw_mid i9 rfl (by simp [hp])
    · rw [countP_mid inCSW l m]
      try simp only [isA4, wwlB, cntAway, ordB, cntB, inCSW, hp, ft, Bool.false_eq_true, Bool.true_eq_false, if_false, if_true, Bool.not_true, Bool.not_false, Bool.and_true, Bool.and_false, Bool.true_and, Bool.false_and, eq_self_iff_true]
      omega
  | wOrderFailStep hp hz =>
    simp [flagsOK, hp] at ft
    exact inv_frame inv rfl rfl rfl rfl rfl rfl rfl rfl rfl
      (by simp [isA4, hp]) rfl (by simp [cntAway, isA4, hp]) rfl rfl
      (by simp [inCSW, hp])
      (by simp [flagsOK, ft])
      (by simp [hp]) (by simp [hp])
  | wAcq1SuccStep hp h =>
    simp [flagsOK, hp] at ft
    exact inv_frame inv rfl rfl rfl rfl rfl rfl rfl rfl rfl
      (by simp [isA4, hp]) rfl (by simp [cntAway, isA4, hp]) rfl rfl
      (by simp [inCSW, hp])
      (by simp [flagsOK, ft])
      (by simp [hp]) (by simp [hp])
  | wAcq1FailStep hp hz =>
    simp [flagsOK, hp] at ft
    exact inv_frame inv rfl rfl rfl rfl rfl rfl rfl rfl rfl
      (by cases ht : t.ord <;> simp [isA4, hp, ht])
      rfl
      (by cases ht : t.ord <;> simp [cntAway, isA4, hp, ht])
      rfl rfl
      (by cases ht : t.ord <;> simp [inCSW, hp, ht])
      (by cases ht : t.ord <;> simp [flagsOK, ht, ft])
      (by simp [hp]) (by simp [hp])
  | wAcq2SuccStep hp h =>
    simp [flagsOK, hp] at ft
    obtain ⟨i1, i2, i3, i4, i5, i6, i7, i8, i9, i10⟩ := inv
    rw [countP_mid isA4 l m] at i1
    rw [countP_mid wwlB l m, countP_mid cntAway l m] at i2
    rw [countP_mid ordB l m] at i3
    rw [countP_mid cntB l m] at i4
    rw [countP_mid cntB l m, countP_mid isA4 l m] at i5
    rw [countP_mid inCSW l m] at i10
    try simp only [isA4, wwlB, cntAway, ordB, cntB, inCSW, hp, ft, Bool.false_eq_true, Bool.true_eq_false, if_false, if_true, Bool.not_true, Bool.not_false, Bool.and_true, Bool.and_false, Bool.true_and, Bool.false_and, eq_self_iff_true] at i1
    try simp only [isA4, wwlB, cntAway, ordB, cntB, inCSW, hp, ft, Bool.false_eq_true, Bool.true_eq_false, if_false, if_true, Bool.not_true, Bool.not_false, Bool.and_true, Bool.and_false, Bool.true_and, Bool.false_and, eq_self_iff_true] at i2
    try simp only [isA4, wwlB, cntAway, ordB, cntB, inCSW, hp, ft, Bool.false_eq_true, Bool.true_eq_false, if_false, if_true, Bool.not_true, Bool.not_false, Bool.and_true, Bool.and_false, Bool.true_and, Bool.false_and, eq_self_iff_true] at i3
    try simp only [isA4, wwlB, cntAway, ordB, cntB, inCSW, hp, ft, Bool.false_eq_true, Bool.true_eq_false, if_false, if_true, Bool.not_true, Bool.not_false, Bool.and_true, Bool.and_false, Bool.true_and, Bool.false_and, eq_self_iff_true] at i4
    try simp only [isA4, wwlB, cntAway, ordB, cntB, inCSW, hp, ft, Bool.false_eq_true, Bool.true_eq_false, if_false, if_true, Bool.not_true, Bool.not_false, Bool.and_true, Bool.and_false, Bool.true_and, Bool.false_and, eq_self_iff_true] at i5
    try simp only [isA4, wwlB, cntAway, ordB, cntB, inCSW, hp, ft, Bool.false_eq_true, Bool.true_eq_false, if_false, if_true, Bool.not_true, Bool.not_false, Bool.and_true, Bool.and_false, Bool.true_and, Bool.false_and, eq_self_iff_true] at i10
    refine ⟨?_, ?_, ?_, ?_, ?_, ?_, ?_, ?_, ?_, ?_⟩
    · rw [countP_mid isA4 l m]
      try simp only [isA4, wwlB, cntAway, ordB, cntB, inCSW, hp, ft, Bool.false_eq_true, Bool.true_eq_false, if_false, if_true, Bool.not_true, Bool.not_false, Bool.and_true, Bool.and_false, Bool.true_and, Bool.false_and, eq_self_iff_true]
      omega
    · rw [countP_mid wwlB l m, countP_mid cntAway l m]
      try simp only [isA4, wwlB, cntAway, ordB, cntB, inCSW, hp, ft, Bool.false_eq_true, Bool.true_eq_false, if_false, if_true, Bool.not_true, Bool.not_false, Bool.and_true, Bool.and_false, Bool.true_and, Bool.false_and, eq_self_iff_true]
      omega
    · rw [countP_mid ordB l m]
      try simp only [isA4, wwlB, cntAway, ordB, cntB, inCSW, hp, ft, Bool.false_eq_true, Bool.true_eq_false, if_false, if_true, Bool.not_true, Bool.not_false, Bool.and_true, Bool.and_false, Bool.true_and, Bool.false_and, eq_self_iff_true]
      omega
    · rw [countP_mid cntB l m]
      try simp only [isA4, wwlB, cntAway, ordB, cntB, inCSW, hp, ft, Bool.false_eq_true, Bool.true_eq_false, if_false, if_true, Bool.not_true, Bool.not_false, Bool.and_true, Bool.and_false, Bool.true_and, Bool.false_and, eq_self_iff_true]
      omega
    · rw [countP_mid cntB l m, countP_mid isA4 l m]
      try simp only [isA4, wwlB, cntAway, ordB, cntB, inCSW, hp, ft, Bool.false_eq_true, Bool.true_eq_false, if_false, if_true, Bool.not_true, Bool.not_false, Bool.and_true, Bool.and_false, Bool.true_and, Bool.false_and, eq_self_iff_true]
      omega
    · exact flags_mid i6 (by simp [flagsOK, ft])
    · exact ids_mid i7 rfl
    · exact har_mid i8 rfl (by simp [hp])
    · exact haw_mid i9 rfl (by simp [hp])
    · rw [countP_mid inCSW l m]
      try simp only [isA4, wwlB, cntAway, ordB, cntB, inCSW, hp, ft, Bool.false_eq_true, Bool.true_eq_false, if_false, if_true, Bool.not_true, Bool.not_false, Bool.and_true, Bool.and_false, Bool.true_and, Bool.false_and, eq_self_iff_true]
      omega
  | wAcq2FailStep hp hz =>
    simp [flagsOK, hp] at ft
    exact inv_frame inv rfl rfl rfl rfl rfl rfl rfl rfl rfl
      (by cases ht : t.ord <;> simp [isA4, hp, ht])
      rfl
      (by cases ht : t.ord <;> simp [cntAway, isA4, hp, ht])
      rfl rfl
      (by cases ht : t.ord <;> simp [inCSW, hp, ht])
      (by cases ht : t.ord <;> simp [flagsOK, ht, ft])
      (by simp [hp]) (by simp [hp])
  | wAcq3Step hp hm =>
    simp [flagsOK, hp] at ft
    exact inv_frame inv rfl rfl rfl rfl rfl rfl rfl rfl rfl
      (by cases ht : t.ord <;> simp [isA4, hp, ht])
      rfl
      (by cases ht : t.ord <;> simp [cntAway, isA4, hp, ht])
      rfl rfl
      (by cases ht : t.ord <;> simp [inCSW, hp, ht])
      (by cases ht : t.ord <;> simp [flagsOK, ht, ft])
      (by simp [hp]) (by simp [hp])
  | wOrdRelStep hp =>
    simp [flagsOK, hp] at ft
    obtain ⟨i1, i2, i3, i4, i5, i6, i7, i8, i9, i10⟩ := inv
    rw [countP_mid isA4 l m] at i1
    rw [countP_mid wwlB l m, countP_mid cntAway l m] at i2
    rw [countP_mid ordB l m] at i3
    rw [countP_mid cntB l m] at i4
    rw [countP_mid cntB l m, countP_mid isA4 l m] at i5
    rw [countP_mid inCSW l m] at i10
    try simp only [isA4, wwlB, cntAway, ordB, cntB, inCSW, hp, ft, Bool.false_eq_true, Bool.true_eq_false, if_false, if_true, Bool.not_true, Bool.not_false, Bool.and_true, Bool.and_false, Bool.true_and, Bool.false_and, eq_self_iff_true] at i1
    try simp only [isA4, wwlB, cntAway, ordB, cntB, inCSW, hp, ft, Bool.false_eq_true, Bool.true_eq_false, if_false, if_true, Bool.not_true, Bool.not_false, Bool.and_true, Bool.and_false, Bool.true_and, Bool.false_and, eq_self_iff_true] at i2
    try simp only [isA4, wwlB, cntAway, ordB, cntB, inCSW, hp, ft, Bool.false_eq_true, Bool.true_eq_false, if_false, if_true, Bool.not_true, Bool.not_false, Bool.and_true, Bool.and_false, Bool.true_and, Bool.false_and, eq_self_iff_true] at i3
    try simp only [isA4, wwlB, cntAway, ordB, cntB, inCSW, hp, ft, Bool.false_eq_true, Bool.true_eq_false, if_false, if_true, Bool.not_true, Bool.not_false, Bool.and_true, Bool.and_false, Bool.true_and, Bool.false_and, eq_self_iff_true] at i4
    try simp only [isA4, wwlB, cntAway, ordB, cntB, inCSW, hp, ft, Bool.false_eq_true, Bool.true_eq_false, if_false, if_true, Bool.not_true, Bool.not_false, Bool.and_true, Bool.and_false, Bool.true_and, Bool.false_and, eq_self_iff_true] at i5
    try simp only [isA4, wwlB, cntAway, ordB, cntB, inCSW, hp, ft, Bool.false_eq_true, Bool.true_eq_false, if_false, if_true, Bool.not_true, Bool.not_false, Bool.and_true, Bool.and_false, Bool.true_and, Bool.false_and, eq_self_iff_true] at i10
    refine ⟨?_, ?_, ?_, ?_, ?_, ?_, ?_, ?_, ?_, ?_⟩
    · rw [countP_mid isA4 l m]
      try simp only [isA4, wwlB, cntAway, ordB, cntB, inCSW, hp, ft, Bool.false_eq_true, Bool.true_eq_false, if_false, if_true, Bool.not_true, Bool.not_false, Bool.and_true, Bool.and_false, Bool.true_and, Bool.false_and, eq_self_iff_true]
      omega
    · rw [countP_mid wwlB l m, countP_mid cntAway l m]
      try simp only [isA4, wwlB, cntAway, ordB, cntB, inCSW, hp, ft, Bool.false_eq_true, Bool.true_eq_false, if_false, if_true, Bool.not_true, Bool.not_false, Bool.and_true, Bool.and_false, Bool.true_and, Bool.false_and, eq_self_iff_true]
      omega
    · rw [countP_mid ordB l m]
      try simp only [isA4, wwlB, cntAway, ordB, cntB, inCSW, hp, ft, Bool.false_eq_true, Bool.true_eq_false, if_false, if_true, Bool.not_true, Bool.not_false, Bool.and_true, Bool.and_false, Bool.true_and, Bool.false_and, eq_self_iff_true]
      omega
    · rw [countP_mid cntB l m]
      try simp only [isA4, wwlB, cntAway, ordB, cntB, inCSW, hp, ft, Bool.false_eq_true, Bool.true_eq_false, if_false, if_true, Bool.not_true, Bool.not_false, Bool.and_true, Bool.and_false, Bool.true_and, Bool.false_and, eq_self_iff_true]
      omega
    · rw [countP_mid cntB l m, countP_mid isA4 l m]
      try simp only [isA4, wwlB, cntAway, ordB, cntB, inCSW, hp, ft, Bool.false_eq_true, Bool.true_eq_false, if_false, if_true, Bool.not_true, Bool.not_false, Bool.and_true, Bool.and_false, Bool.true_and, Bool.false_and, eq_self_iff_true]
      omega
    · exact flags_mid i6 (by simp [flagsOK, ft])
    · exact ids_mid i7 rfl
    · exact har_mid i8 rfl (by simp [hp])
    · exact haw_mid i9 rfl (by simp [hp])
    · rw [countP_mid inCSW l m]
      try simp only [isA4, wwlB, cntAway, ordB, cntB, inCSW, hp, ft, Bool.false_eq_true, Bool.true_eq_false, if_false, if_true, Bool.not_true, Bool.not_false, Bool.and_true, Bool.and_false, Bool.true_and, Bool.false_and, eq_self_iff_true]
      omega
  | wPostFailStep hp h =>
    simp [flagsOK, hp] at ft
    exact inv_frame inv rfl rfl rfl rfl rfl rfl rfl rfl rfl
      (by simp [isA4, hp]) rfl (by simp [cntAway, isA4, hp]) rfl rfl
      (by simp [inCSW, hp])
      (by simp [flagsOK, ft])
      (by simp [hp]) (by simp [hp])
  | wPostSuccStep hp hr =>
    simp [flagsOK, hp] at ft
    exact inv_frame inv rfl rfl rfl rfl rfl rfl rfl rfl rfl
      (by simp [isA4, hp]) rfl (by simp [cntAway, isA4, hp]) rfl rfl
      (by simp [inCSW, hp])
      (by simp [flagsOK, ft])
      (by simp [hp]) (by simp [hp])
  | wWriteStep hp =>
    simp [flagsOK, hp] at ft
    obtain ⟨i1, i2, i3, i4, i5, i6, i7, i8, i9, i10⟩ := inv
    rw [countP_mid isA4 l m] at i1
    rw [countP_mid wwlB l m, countP_mid cntAway l m] at i2
    rw [countP_mid ordB l m] at i3
    rw [countP_mid cntB l m] at i4
    rw [countP_mid cntB l m, countP_mid isA4 l m] at i5
    rw [countP_mid inCSW l m] at i10
    try simp only [isA4, wwlB, cntAway, ordB, cntB, inCSW, hp, ft, Bool.false_eq_true, Bool.true_eq_false, if_false, if_true, Bool.not_true, Bool.not_false, Bool.and_true, Bool.and_false, Bool.true_and, Bool.false_and, eq_self_iff_true] at i1
    try simp only [isA4, wwlB, cntAway, ordB, cntB, inCSW, hp, ft, Bool.false_eq_true, Bool.true_eq_false, if_false, if_true, Bool.not_true, Bool.not_false, Bool.and_true, Bool.and_false, Bool.true_and, Bool.false_and, eq_self_iff_true] at i2
    try simp only [isA4, wwlB, cntAway, ordB, cntB, inCSW, hp, ft, Bool.false_eq_true, Bool.true_eq_false, if_false, if_true, Bool.not_true, Bool.not_false, Bool.and_true, Bool.and_false, Bool.true_and, Bool.false_and, eq_self_iff_true] at i3
    try simp only [isA4, wwlB, cntAway, ordB, cntB, inCSW, hp, ft, Bool.false_eq_true, Bool.true_eq_false, if_false, if_true, Bool.not_true, Bool.not_false, Bool.and_true, Bool.and_false, Bool.true_and, Bool.false_and, eq_self_iff_true] at i4
    try simp only [isA4, wwlB, cntAway, ordB, cntB, inCSW, hp, ft, Bool.false_eq_true, Bool.true_eq_false, if_false, if_true, Bool.not_true, Bool.not_false, Bool.and_true, Bool.and_false, Bool.true_and, Bool.false_and, eq_self_iff_true] at i5
    try simp only [isA4, wwlB, cntAway, ordB, cntB, inCSW, hp, ft, Bool.false_eq_true, Bool.true_eq_false, if_false, if_true, Bool.not_true, Bool.not_false, Bool.and_true, Bool.and_false, Bool.true_and, Bool.false_and, eq_self_iff_true] at i10
    refine ⟨?_, ?_, ?_, ?_, ?_, ?_, ?_, ?_, ?_, ?_⟩
    · rw [countP_mid isA4 l m]
      try simp only [isA4, wwlB, cntAway, ordB, cntB, inCSW, hp, ft, Bool.false_eq_true, Bool.true_eq_false, if_false, if_true, Bool.not_true, Bool.not_false, Bool.and_true, Bool.and_false, Bool.true_and, Bool.false_and, eq_self_iff_true]
      omega
    · rw [countP_mid wwlB l m, countP_mid cntAway l m]
      try simp only [isA4, wwlB, cntAway, ordB, cntB, inCSW, hp, ft, Bool.false_eq_true, Bool.true_eq_false, if_false, if_true, Bool.not_true, Bool.not_false, Bool.and_true, Bool.and_false, Bool.true_and, Bool.false_and, eq_self_iff_true]
      omega
    · rw [countP_mid ordB l m]
      try simp only [isA4, wwlB, cntAway, ordB, cntB, inCSW, hp, ft, Bool.false_eq_true, Bool.true_eq_false, if_false, if_true, Bool.not_true, Bool.not_false, Bool.and_true, Bool.and_false, Bool.true_and, Bool.false_and, eq_self_iff_true]
      omega
    · rw [countP_mid cntB l m]
      try simp only [isA4, wwlB, cntAway, ordB, cntB, inCSW, hp, ft, Bool.false_eq_true, Bool.true_eq_false, if_false, if_true, Bool.not_true, Bool.not_false, Bool.and_true, Bool.and_false, Bool.true_and, Bool.false_and, eq_self_iff_true]
      omega
    · rw [countP_mid cntB l m, countP_mid isA4 l m]
      try simp only [isA4, wwlB, cntAway, ordB, cntB, inCSW, hp, ft, Bool.false_eq_true, Bool.true_eq_false, if_false, if_true, Bool.not_true, Bool.not_false, Bool.and_true, Bool.and_false, Bool.true_and, Bool.false_and, eq_self_iff_true]
      omega
    · exact flags_mid i6 (by simp [flagsOK, ft])
    · exact ids_mid i7 rfl
    · exact har_mid i8 rfl (by simp [hp])
    · intro w hw
      simp at hw
      exact ⟨_, self_mem_mid, by simp [hw], Or.inl rfl⟩
    · rw [countP_mid inCSW l m]
      try simp only [isA4, wwlB, cntAway, ordB, cntB, inCSW, hp, ft, Bool.false_eq_true, Bool.true_eq_false, if_false, if_true, Bool.not_true, Bool.not_false, Bool.and_true, Bool.and_false, Bool.true_and, Bool.false_and, eq_self_iff_true]
      omega
  | wHoldStep hp =>
    simp [flagsOK, hp] at ft
    exact inv_frame inv rfl rfl rfl rfl rfl rfl rfl rfl rfl
      (by simp [isA4, hp]) rfl (by simp [cntAway, isA4, hp]) rfl rfl
      (by simp [inCSW, hp])
      (by simp [flagsOK, ft])
      (by simp [hp]) (fun _ => Or.inr rfl)
  | wRelStep hp =>
    simp [flagsOK, hp] at ft
    obtain ⟨i1, i2, i3, i4, i5, i6, i7, i8, i9, i10⟩ := inv
    rw [countP_mid isA4 l m] at i1
    rw [countP_mid wwlB l m, countP_mid cntAway l m] at i2
    rw [countP_mid ordB l m] at i3
    rw [countP_mid cntB l m] at i4
    rw [countP_mid cntB l m, countP_mid isA4 l m] at i5
    rw [countP_mid inCSW l m] at i10
    try simp only [isA4, wwlB, cntAway, ordB, cntB, inCSW, hp, ft, Bool.false_eq_true, Bool.true_eq_false, if_false, if_true, Bool.not_true, Bool.not_false, Bool.and_true, Bool.and_false, Bool.true_and, Bool.false_and, eq_self_iff_true] at i1
    try simp only [isA4, wwlB, cntAway, ordB, cntB, inCSW, hp, ft, Bool.false_eq_true, Bool.true_eq_false, if_false, if_true, Bool.not_true, Bool.not_false, Bool.and_true, Bool.and_false, Bool.true_and, Bool.false_and, eq_self_iff_true] at i2
    try simp only [isA4, wwlB, cntAway, ordB, cntB, inCSW, hp, ft, Bool.false_eq_true, Bool.true_eq_false, if_false, if_true, Bool.not_true, Bool.not_false, Bool.and_true, Bool.and_false, Bool.true_and, Bool.false_and, eq_self_iff_true] at i3
    try simp only [isA4, wwlB, cntAway, ordB, cntB, inCSW, hp, ft, Bool.false_eq_true, Bool.true_eq_false, if_false, if_true, Bool.not_true, Bool.not_false, Bool.and_true, Bool.and_false, Bool.true_and, Bool.false_and, eq_self_iff_true] at i4
    try simp only [isA4, wwlB, cntAway, ordB, cntB, inCSW, hp, ft, Bool.false_eq_true, Bool.true_eq_false, if_false, if_true, Bool.not_true, Bool.not_false, Bool.and_true, Bool.and_false, Bool.true_and, Bool.false_and, eq_self_iff_true] at i5
    try simp only [isA4, wwlB, cntAway, ordB, cntB, inCSW, hp, ft, Bool.false_eq_true, Bool.true_eq_false, if_false, if_true, Bool.not_true, Bool.not_false, Bool.and_true, Bool.and_false, Bool.true_and, Bool.false_and, eq_self_iff_true] at i10
    refine ⟨?_, ?_, ?_, ?_, ?_, ?_, ?_, ?_, ?_, ?_⟩
    · rw [countP_mid isA4 l m]
      try simp only [isA4, wwlB, cntAway, ordB, cntB, inCSW, hp, ft, Bool.false_eq_true, Bool.true_eq_false, if_false, if_true, Bool.not_true, Bool.not_false, Bool.and_true, Bool.and_false, Bool.true_and, Bool.false_and, eq_self_iff_true]
      omega
    · rw [countP_mid wwlB l m, countP_mid cntAway l m]
      try simp only [isA4, wwlB, cntAway, ordB, cntB, inCSW, hp, ft, Bool.false_eq_true, Bool.true_eq_false, if_false, if_true, Bool.not_true, Bool.not_false, Bool.and_true, Bool.and_false, Bool.true_and, Bool.false_and, eq_self_iff_true]
      omega
    · rw [countP_mid ordB l m]
      try simp only [isA4, wwlB, cntAway, ordB, cntB, inCSW, hp, ft, Bool.false_eq_true, Bool.true_eq_false, if_false, if_true, Bool.not_true, Bool.not_false, Bool.and_true, Bool.and_false, Bool.true_and, Bool.false_and, eq_self_iff_true]
      omega
    · rw [countP_mid cntB l m]
      try simp only [isA4, wwlB, cntAway, ordB, cntB, inCSW, hp, ft, Bool.false_eq_true, Bool.true_eq_false, if_false, if_true, Bool.not_true, Bool.not_false, Bool.and_true, Bool.and_false, Bool.true_and, Bool.false_and, eq_self_iff_true]
      omega
    · rw [countP_mid cntB l m, countP_mid isA4 l m]
      try simp only [isA4, wwlB, cntAway, ordB, cntB, inCSW, hp, ft, Bool.false_eq_true, Bool.true_eq_false, if_false, if_true, Bool.not_true, Bool.not_false, Bool.and_true, Bool.and_false, Bool.true_and, Bool.false_and, eq_self_iff_true]
      omega
    · exact flags_mid i6 (by simp [flagsOK, ft])
    · exact ids_mid i7 rfl
    · exact har_mid i8 rfl (by simp [hp])
    · intro w hw
      exact absurd hw (by simp)
    · rw [countP_mid inCSW l m]
      try simp only [isA4, wwlB, cntAway, ordB, cntB, inCSW, hp, ft, Bool.false_eq_true, Bool.true_eq_false, if_false, if_true, Bool.not_true, Bool.not_false, Bool.and_true, Bool.and_false, Bool.true_and, Bool.false_and, eq_self_iff_true]
      omega
  | wCleanupStep hp hm =>
    simp [flagsOK, hp] at ft
    exact inv_frame inv rfl rfl rfl rfl rfl rfl rfl rfl rfl
      (by simp [isA4, hp]) rfl (by simp [cntAway, isA4, hp]) rfl rfl
      (by simp [inCSW, hp])
      (by simp [flagsOK, ft])
      (by simp [hp]) (by simp [hp])
  | stopFlagStep =>
    exact inv_frame inv rfl rfl rfl rfl rfl rfl rfl rfl rfl
      rfl rfl rfl rfl rfl rfl ft (fun h => h) (fun h => h)


/-! ## The invariant holds in every reachable configuration -/

theorem inv_step {c c' : Config} (h : Step c c') (inv : Inv c) : Inv c' := by
  cases h with
  | mk l m hl => exact local_inv hl inv

theorem inv_init {mode : Mode} {sp : Bool} {ts : List Thread} (h : InitTs ts) :
    Inv ⟨initRes mode sp, ts⟩ := by
  obtain ⟨h1, h2⟩ := h
  have hz : ∀ (p : Thread → Bool), (∀ t ∈ ts, p t = false) → ts.countP p = 0 :=
    fun p hp => List.countP_eq_zero.2 (fun a ha => by simp [hp a ha])
  have hA4 : ts.countP isA4 = 0 := hz _ (fun t htm => by
    rcases (h1 t htm).1 with hph | hph <;> simp [isA4, hph])
  have hcntz : ts.countP cntB = 0 := hz _ (fun t htm => by
    simp [cntB, (h1 t htm).2.2.2.2.2.1])
  have hAw : ts.countP cntAway = 0 := hz _ (fun t htm => by
    simp [cntAway, (h1 t htm).2.2.2.2.2.1])
  have hW : ts.countP wwlB = 0 := hz _ (fun t htm => by
    simp [wwlB, (h1 t htm).2.2.2.2.1])
  have hO : ts.countP ordB = 0 := hz _ (fun t htm => by
    simp [ordB, (h1 t htm).2.2.1])
  have hCS : ts.countP inCSW = 0 := hz _ (fun t htm => by
    rcases (h1 t htm).1 with hph | hph <;> simp [inCSW, hph])
  refine ⟨?_, ?_, ?_, ?_, ?_, ?_, ?_, ?_, ?_, ?_⟩
  · simp [initRes, hA4]
  · simp [initRes, hW, hAw]
  · simp [initRes, hO]
  · simp [initRes, hcntz]
  · exact Or.inr hA4
  · intro t htm
    obtain ⟨hph, hrun, ho, hw, hwl, hc, ha⟩ := h1 t htm
    rcases hph with hph | hph <;> simp [flagsOK, hph, ho, hwl, hc]
  · exact h2
  · exact ⟨by simp [initRes], by simp [initRes]⟩
  · intro w hw
    simp [initRes] at hw
  · simp [initRes, hCS]

theorem inv_reachable {c c' : Config} (h : Reachable c c') (inv : Inv c) :
    Inv c' := by
  induction h with
  | refl => exact inv
  | tail _ hs ih => exact inv_step hs ih

/-! ## Claim C1: mutual exclusion -/

/-- C1: for every interleaving of reader and writer tasks, under every mode
and either setting of starvation prevention, it is never the case that a
reader and a writer hold admission simultaneously (the `active_readers`
list is nonempty while `active_writer` is set), and never the case that two
writers hold admission (the `write_lock` token) simultaneously. -/
theorem c1_mutual_exclusion (mode : Mode) (sp : Bool) (ts : List Thread)
    (hts : InitTs ts) (c : Config)
    (hr : Reachable ⟨initRes mode sp, ts⟩ c) : MutexOK c := by
  have inv := inv_reachable hr (inv_init hts)
  constructor
  · have h2 := inv.hwl
    omega
  · rintro ⟨hne, hsome⟩
    obtain ⟨a, ha⟩ := List.exists_mem_of_ne_nil _ hne
    obtain ⟨x, hx, hxa, hxp⟩ := inv.har.2 a ha
    have hxf := inv.hflags x hx
    have hxc : cntAway x = true := by
      rcases hxp with hph | hph
      all_goals simp [flagsOK, hph] at hxf
      all_goals simp [cntAway, isA4, hph, hxf]
    have hAwPos : 0 < c.thr.countP cntAway := List.countP_pos_iff.2 ⟨x, hx, hxc⟩
    obtain ⟨w, hw⟩ := Option.ne_none_iff_exists'.1 hsome
    obtain ⟨y, hy, hya, hyp⟩ := inv.haw w hw
    have hyf := inv.hflags y hy
    have hyw : wwlB y = true := by
      rcases hyp with hph | hph
      all_goals simp [flagsOK, hph] at hyf
      all_goals simp [wwlB, hph, hyf]
    have hWPos : 0 < c.thr.countP wwlB := List.countP_pos_iff.2 ⟨y, hy, hyw⟩
    have h2 := inv.hwl
    omega

/-- Witness for C1: the hypotheses are satisfiable, at a one-reader initial
configuration. -/
theorem c1_mutual_exclusion_witness :
    InitTs [⟨1, Phase.rIdle, true, false, false, false, false, false⟩] ∧
    MutexOK ⟨initRes Mode.fair true,
      [⟨1, Phase.rIdle, true, false, false, false, false, false⟩]⟩ :=
  ⟨by decide,
   c1_mutual_exclusion Mode.fair true _ (by decide) _ Relation.ReflTransGen.refl⟩

/-! ## Claim C6: the shared value counts completed writes -/

/-- C6: the shared value starts at 0 and, in every reachable configuration,
equals the number of completed writes (`total_writes`) plus the number of
writers currently inside their critical section — each write adds exactly 1
(`wWriteStep`), so whenever no writer is mid-write, `data = total_writes`,
and after the first completed write the value is 1. -/
theorem c6_value_counts_writes (mode : Mode) (sp : Bool) (ts : List Thread)
    (hts : InitTs ts) :
    (initRes mode sp).data = 0 ∧
    ∀ c : Config, Reachable ⟨initRes mode sp, ts⟩ c →
      c.res.data = c.res.total_writes + (c.thr.countP inCSW : Int) :=
  ⟨rfl, fun _ hr => (inv_reachable hr (inv_init hts)).hdata⟩

/-- Witness for C6 at a concrete initial configuration. -/
theorem c6_value_counts_writes_witness :
    (initRes Mode.fair true).data = 0 ∧
    (⟨initRes Mode.fair true,
        [⟨1, Phase.wIdle, true, false, false, false, false, false⟩]⟩ :
        Config).res.data =
      (⟨initRes Mode.fair true,
        [⟨1, Phase.wIdle, true, false, false, false, false, false⟩]⟩ :
        Config).res.total_writes +
      (([⟨1, Phase.wIdle, true, false, false, false, false, false⟩] :
        List Thread).countP inCSW : Int) :=
  ⟨(c6_value_counts_writes Mode.fair true
      [⟨1, Phase.wIdle, true, false, false, false, false, false⟩] (by decide)).1,
   (c6_value_counts_writes Mode.fair true
      [⟨1, Phase.wIdle, true, false, false, false, false, false⟩] (by decide)).2
      _ Relation.ReflTransGen.refl⟩


/-! ## Claim C3: strict FIFO fairness of fair mode -/

/-- C3 amended: under every mode (fair mode in particular), at most one
worker holds `order_lock` at any time — admissions are serialized, which is
all the order_lock provides. -/
theorem c3_order_serialized (mode : Mode) (sp : Bool) (ts : List Thread)
    (hts : InitTs ts) (c : Config)
    (hr : Reachable ⟨initRes mode sp, ts⟩ c) :
    c.thr.countP ordB ≤ 1 := by
  have h := (inv_reachable hr (inv_init hts)).hord
  omega

/-- Witness for the amended C3 statement. -/
theorem c3_order_serialized_witness :
    InitTs [⟨1, Phase.rIdle, true, false, false, false, false, false⟩] ∧
    ([⟨1, Phase.rIdle, true, false, false, false, false, false⟩] :
        List Thread).countP ordB ≤ 1 :=
  ⟨by decide,
   c3_order_serialized Mode.fair true _ (by decide) _ Relation.ReflTransGen.refl⟩

theorem c3_reach : Reachable c3Start c3End :=
  .head (Step.mk []
      [⟨2, Phase.wIdle, true, false, false, false, false, false⟩]
      (LocalStep.rEnterStep rfl (by decide)))
  (.head (Step.mk
      [⟨1, Phase.rOrder, true, false, false, false, false, false⟩] []
      (LocalStep.wEnterStep rfl (by decide)))
  (.head (Step.mk
      [⟨1, Phase.rOrder, true, false, false, false, false, false⟩] []
      (LocalStep.wOrderSuccStep rfl (by decide)))
  (.head (Step.mk
      [⟨1, Phase.rOrder, true, false, false, false, false, false⟩] []
      (LocalStep.wAcq1SuccStep rfl (by decide)))
  (.head (Step.mk
      [⟨1, Phase.rOrder, true, false, false, false, false, false⟩] []
      (LocalStep.wAcq2SuccStep rfl (by decide)))
  (.head (Step.mk
      [⟨1, Phase.rOrder, true, false, false, false, false, false⟩] []
      (LocalStep.wAcq3Step rfl (by decide)))
  .refl)))))

/-- C3 counterexample: a reachable configuration of fair mode in which a
worker that requested admission strictly later was admitted strictly
earlier, refuting strict FIFO admission order. -/
theorem c3_counterexample :
    Reachable c3Start c3End ∧ c3End.res.mode = Mode.fair ∧
    c3End.res.reqLog = [1, 2] ∧ c3End.res.admLog = [2] ∧ ¬ FifoOK c3End.res :=
  ⟨c3_reach, by decide, by decide, by decide, by decide⟩

/-! ## Claim C2: counters restored on every exit path -/

theorem c2_reach : Reachable c2Start c2End :=
  .head (Step.mk []
      [⟨2, Phase.wIdle, true, false, false, false, false, false⟩]
      (LocalStep.rEnterStep rfl (by decide)))
  (.head (Step.mk []
      [⟨2, Phase.wIdle, true, false, false, false, false, false⟩]
      (LocalStep.rAcq1SuccStep rfl (by decide)))
  (.head (Step.mk []
      [⟨2, Phase.wIdle, true, false, false, false, false, false⟩]
      (LocalStep.rAcq2SuccOneStep rfl (by decide) (by decide)))
  (.head (Step.mk []
      [⟨2, Phase.wIdle, true, false, false, false, false, false⟩]
      (LocalStep.rAcq4SuccStep rfl (by decide)))
  (.head (Step.mk []
      [⟨2, Phase.wIdle, true, false, false, false, false, false⟩]
      (LocalStep.rPostSuccStep rfl rfl))
  (.head (Step.mk []
      [⟨2, Phase.wIdle, true, false, false, false, false, false⟩]
      (LocalStep.rAppendStep rfl (by decide)))
  (.head (Step.mk
      [⟨1, Phase.rHold, true, false, false, false, true, false⟩] []
      (LocalStep.wEnterStep rfl (by decide)))
  (.head (Step.mk
      [⟨1, Phase.rHold, true, false, false, false, true, false⟩] []
      (LocalStep.wPollNoStep rfl (by decide) (Or.inl (by decide))))
  (.head (Step.mk
      [⟨1, Phase.rHold, true, false, false, false, true, false⟩] []
      LocalStep.stopFlagStep)
  (.head (Step.mk
      [⟨1, Phase.rHold, true, false, false, false, true, false⟩] []
      (LocalStep.wPollLeakStep rfl rfl))
  (.head (Step.mk []
      [⟨2, Phase.wDone, false, false, false, false, false, false⟩]
      (LocalStep.rHoldStep rfl))
  (.head (Step.mk []
      [⟨2, Phase.wDone, false, false, false, false, false, false⟩]
      (LocalStep.rRelStep rfl (by decide)))
  .refl)))))))))))

/-- C2: the claim fails on the code — the early return at lines 326-327
(`if not self.running: return` after the sleep) skips `_cleanup_waiting`,
so there is an execution (a reader holds the resource, a waiting writer is
stopped during the sleep of its politeness loop, then the reader finishes)
in which every spawned worker has terminated and yet `writers_waiting = 1`
and the waiting list still holds the worker's id.  Every step of the trace
is a guarded transition the program can take.  The same pattern exists for
readers at lines 183-184. -/
theorem c2_cancellation_leak :
    Reachable c2Start c2End ∧
    (∀ t ∈ c2End.thr, t.phase = Phase.rDone ∨ t.phase = Phase.wDone) ∧
    c2End.res.writers_waiting = 1 ∧ c2End.res.waiting_writers_list = [2] :=
  ⟨c2_reach, by decide, by decide, by decide⟩

theorem c4_reach : Reachable c4Start c4End :=
  .head (Step.mk []
      [⟨2, Phase.wIdle, true, false, false, false, false, false⟩]
      (LocalStep.rEnterStep rfl (by decide)))
  (.head (Step.mk []
      [⟨2, Phase.wIdle, true, false, false, false, false, false⟩]
      (LocalStep.rAcq1SuccStep rfl (by decide)))
  (.head (Step.mk []
      [⟨2, Phase.wIdle, true, false, false, false, false, false⟩]
      (LocalStep.rAcq2SuccOneStep rfl (by decide) (by decide)))
  (.head (Step.mk []
      [⟨2, Phase.wIdle, true, false, false, false, false, false⟩]
      (LocalStep.rAcq4SuccStep rfl (by decide)))
  (.head (Step.mk []
      [⟨2, Phase.wIdle, true, false, false, false, false, false⟩]
      (LocalStep.rPostSuccStep rfl rfl))
  (.head (Step.mk []
      [⟨2, Phase.wIdle, true, false, false, false, false, false⟩]
      (LocalStep.rAppendStep rfl (by decide)))
  (.head (Step.mk
      [⟨1, Phase.rHold, true, false, false, false, true, false⟩] []
      (LocalStep.wEnterStep rfl (by decide)))
  (.head (Step.mk
      [⟨1, Phase.rHold, true, false, false, false, true, false⟩] []
      (LocalStep.wPollNoStep rfl (by decide) (Or.inl (by decide))))
  (.head (Step.mk
      [⟨1, Phase.rHold, true, false, false, false, true, false⟩] []
      (LocalStep.wPollStarveStep rfl rfl))
  (.head (Step.mk
      [⟨1, Phase.rHold, true, false, false, false, true, false⟩] []
      (LocalStep.wPostFailStep rfl (Or.inl rfl)))
  (.head (Step.mk
      [⟨1, Phase.rHold, true, false, false, false, true, false⟩] []
      (LocalStep.wCleanupStep rfl (by decide)))
  .refl))))))))))

/-- C4 counterexample: the aged writer of the C4 scenario terminates
without ever being admitted, while a reader holds the resource, refuting
the claim that an aged writer is subsequently admitted (and that new
readers are frozen until it is). -/
theorem c4_counterexample : ¬ c4AgedAdmitted := fun h =>
  absurd
    (h c4End c4_reach ⟨2, Phase.wDone, true, false, false, false, false, true⟩
      (by decide) rfl rfl)
    (by decide)

/-- C4 amended: under reader-priority mode with starvation prevention, a
writer whose wait exceeds `max_wait_time` stops waiting and aborts — there
are executions in which the aged writer terminates un-admitted with the
waiting-writer counters restored, and arriving readers were never frozen. -/
theorem c4_aged_writer_aborts :
    Reachable c4Start c4End ∧
    (∃ t ∈ c4End.thr, t.aged = true ∧ t.phase = Phase.wDone ∧
       t.id ∉ c4End.res.admLog) ∧
    c4End.res.writers_waiting = 0 ∧ c4End.res.waiting_writers_list = [] :=
  ⟨c4_reach, by decide, by decide, by decide⟩

/-! ## Claim C5: writer-priority blocking of readers -/

/-- C5 counterexample, refuting both conjuncts of the claim as stated:
with starvation prevention enabled (the default), a reader whose wait
exceeded `max_wait_time` breaks out of the politeness loop (lines 179-181)
and proceeds to acquire even though a writer is still waiting; and a
stopped writer's `_cleanup_waiting` (lines 386-391) decrements
`writers_waiting` without any admission. -/
theorem c5_counterexample : ¬ c5ReaderWaits ∧ ¬ c5DecOnlyOnAdmission :=
  ⟨fun h =>
    absurd
      (h { initRes Mode.writers true with writers_waiting := 1 }
         ⟨1, Phase.rPoll, true, false, false, false, false, false⟩ _ _
         (LocalStep.rPollStarveStep rfl (by decide) rfl) rfl rfl rfl rfl)
      (by decide),
   fun h =>
    absurd
      (h { initRes Mode.writers true with
            writers_waiting := 1,
            waiting_writers_list := [2] }
         ⟨2, Phase.wCleanup, false, false, false, false, false, false⟩ _ _
         (LocalStep.wCleanupStep rfl (by decide)) rfl (by decide))
      (by decide)⟩

/-- C5 amended: a running reader exits the writers-mode waiting loop only
when either no writer is waiting or starvation prevention is enabled (the
timeout break of lines 179-181); a writer's very first step out of its
idle state increments `writers_waiting` (lines 292-295), i.e. before any
reader-blocking check can miss it; and every step that decreases
`writers_waiting` is either an admission (the stepping worker's id enters
the admission log, lines 311-314 / 373-377) or the abort cleanup
(lines 386-391). -/
theorem c5_amended :
    (∀ (r : Res) (t : Thread) (r' : Res) (t' : Thread),
       LocalStep r t r' t' → t.phase = Phase.rPoll → t.running = true →
       t'.phase = Phase.rAcq1 →
       r.writers_waiting = 0 ∨ r.starvation_prevention = true) ∧
    (∀ (r : Res) (t : Thread) (r' : Res) (t' : Thread),
       LocalStep r t r' t' → t.phase = Phase.wIdle →
       t'.phase ≠ Phase.wIdle →
       r'.writers_waiting = r.writers_waiting + 1) ∧
    (∀ (r : Res) (t : Thread) (r' : Res) (t' : Thread),
       LocalStep r t r' t' → r'.writers_waiting < r.writers_waiting →
       t.id ∈ r'.admLog ∨ t.phase = Phase.wCleanup) := by
  refine ⟨?_, ?_, ?_⟩
  · intro r t r' t' h hp hr hp'
    cases h <;> simp_all
  · intro r t r' t' h hp hp'
    cases h <;> simp_all
  · intro r t r' t' h hlt
    cases h <;> solve
      | (right; assumption)
      | (left; simp)
      | (exfalso; revert hlt; simp)

/-- Witness for the amended C5 statement at concrete steps. -/
theorem c5_amended_witness :
    ((initRes Mode.writers false).writers_waiting = 0 ∨
      (initRes Mode.writers false).starvation_prevention = true) ∧
    (({ initRes Mode.writers false with
        writers_waiting := (initRes Mode.writers false).writers_waiting + 1,
        waiting_writers_list :=
          (initRes Mode.writers false).waiting_writers_list ++ [2],
        reqLog := (initRes Mode.writers false).reqLog ++ [2] }).writers_waiting =
      (initRes Mode.writers false).writers_waiting + 1) ∧
    ((2 : Nat) ∈
      ({ { initRes Mode.writers false with writers_waiting := 1 } with
          writers_waiting :=
            max 0 ({ initRes Mode.writers false with
              writers_waiting := 1 }).writers_waiting - 1,
          waiting_writers_list :=
            ({ initRes Mode.writers false with
              writers_waiting := 1 }).waiting_writers_list.erase 2 }).admLog ∨
      Phase.wCleanup = Phase.wCleanup) :=
  ⟨c5_amended.1 _ ⟨1, Phase.rPoll, true, false, false, false, false, false⟩ _ _
     (LocalStep.rPollZeroStep rfl (by decide) rfl) rfl rfl rfl,
   c5_amended.2.1 _ ⟨2, Phase.wIdle, true, false, false, false, false, false⟩ _ _
     (LocalStep.wEnterStep rfl (by decide)) rfl (by decide),
   c5_amended.2.2 _ ⟨2, Phase.wCleanup, true, false, false, false, false, false⟩ _ _
     (LocalStep.wCleanupStep rfl (by decide)) (by decide)⟩

/-! ## Claim C7: worker id assignment -/

/-- C7 counterexample: the operation sequence start, add a worker, reset,
start, add a worker hands out id 1 twice — ids are reused across reset
(`reset_simulation` sets `next_id = 1`, line 776). -/
theorem c7_counterexample :
    ¬ (runOps [WinOp.toggleRun, WinOp.addWorker, WinOp.resetSim,
        WinOp.toggleRun, WinOp.addWorker]).assignedLog.Nodup := by decide

theorem c7_aux (ops : List WinOp) (s : WinState) (h : WinOp.resetSim ∉ ops)
    (h1 : s.assignedLog.Chain' (· < ·))
    (h2 : ∀ x ∈ s.assignedLog, x < s.next_id) :
    (ops.foldl applyOp s).assignedLog.Chain' (· < ·) ∧
    ∀ x ∈ (ops.foldl applyOp s).assignedLog,
      x < (ops.foldl applyOp s).next_id := by
  induction ops generalizing s with
  | nil => exact ⟨h1, h2⟩
  | cons op rest ih =>
    simp only [List.foldl_cons]
    have hno : WinOp.resetSim ∉ rest := fun hc => h (List.mem_cons_of_mem _ hc)
    cases op with
    | addWorker =>
      refine ih _ hno ?_ ?_
      · by_cases hrun : s.is_running = true
        · simp only [applyOp, hrun, if_true]
          rw [List.chain'_append]
          refine ⟨h1, List.chain'_singleton _, ?_⟩
          intro x hx y hy
          simp at hy
          subst hy
          exact h2 x (List.mem_of_mem_getLast? hx)
        · simp only [applyOp, hrun, if_false]
          exact h1
      · by_cases hrun : s.is_running = true
        · simp only [applyOp, hrun, if_true]
          intro x hx
          rcases List.mem_append.1 hx with hx1 | hx2
          · exact Nat.lt_succ_of_lt (h2 x hx1)
          · simp at hx2
            subst hx2
            exact Nat.lt_succ_self _
        · simp only [applyOp, hrun, if_false]
          exact h2
    | resetSim => exact absurd (List.mem_cons_self _ _) h
    | toggleRun => exact ih _ hno h1 h2

/-- C7 amended: within a run (no reset), the ids handed to workers are
strictly increasing, hence unique and never reused; `reset_simulation`
restarts numbering at 1, so ids are reused across resets. -/
theorem c7_ids_unique_within_run (ops : List WinOp)
    (h : WinOp.resetSim ∉ ops) :
    (runOps ops).assignedLog.Chain' (· < ·) ∧
    (runOps ops).assignedLog.Nodup := by
  have haux := c7_aux ops winInit h (by simp [winInit]) (by simp [winInit])
  refine ⟨haux.1, ?_⟩
  have hp := (List.chain'_iff_pairwise).1 haux.1
  exact hp.imp Nat.ne_of_lt

/-- Witness for the amended C7 statement. -/
theorem c7_ids_unique_within_run_witness :
    WinOp.resetSim ∉ [WinOp.toggleRun, WinOp.addWorker, WinOp.addWorker] ∧
    ((runOps [WinOp.toggleRun, WinOp.addWorker,
        WinOp.addWorker]).assignedLog.Chain' (· < ·) ∧
     (runOps [WinOp.toggleRun, WinOp.addWorker,
        WinOp.addWorker]).assignedLog.Nodup) :=
  ⟨by decide, c7_ids_unique_within_run _ (by decide)⟩

/-! ## Claim C8: the starvation threshold default -/

/-- C8 counterexample: the threshold against which a waiting worker's age
is compared (`max_wait_time`, used at lines 180 and 323) defaults to 10.0,
not 2.0. -/
theorem c8_counterexample : (initRes Mode.readers true).max_wait_time ≠ 2 := by
  decide

/-- C8 amended: `SharedResource.__init__` sets `max_wait_time = 10.0` (the
aging threshold actually compared against) and
`writer_priority_threshold = 5` (defined but never used). -/
theorem c8_threshold_default :
    (initRes Mode.readers true).max_wait_time = 10 ∧
    (initRes Mode.readers true).writer_priority_threshold = 5 :=
  ⟨rfl, rfl⟩

/-! ## Claim C9: Semaphore.acquire -/

/-- C9: every call to `Semaphore.acquire` with a timeout either decrements
the counter by exactly one and returns True, or leaves the counter
unchanged and returns False; a call without a timeout, whenever it
returns, decrements by one and returns True. -/
theorem c9_semaphore_acquire :
    (∀ (T : Rat) (tr : List Obs) (res : Bool) (delta : Int),
        semaphore_acquire (some T) tr = some (res, delta) →
        (res = true ∧ delta = -1) ∨ (res = false ∧ delta = 0)) ∧
    (∀ (tr : List Obs) (res : Bool) (delta : Int),
        semaphore_acquire none tr = some (res, delta) →
        res = true ∧ delta = -1) := by
  constructor
  · intro T tr
    induction tr with
    | nil => intro res delta h; simp [semaphore_acquire] at h
    | cons o rest ih =>
      intro res delta h
      simp only [semaphore_acquire] at h
      split_ifs at h with h1 h2
      · rw [Option.some.injEq, Prod.mk.injEq] at h
        exact Or.inr ⟨h.1.symm, h.2.symm⟩
      · exact ih res delta h
      · rw [Option.some.injEq, Prod.mk.injEq] at h
        exact Or.inl ⟨h.1.symm, h.2.symm⟩
  · intro tr
    induction tr with
    | nil => intro res delta h; simp [semaphore_acquire] at h
    | cons o rest ih =>
      intro res delta h
      simp only [semaphore_acquire] at h
      split_ifs at h with h1
      · exact ih res delta h
      · rw [Option.some.injEq, Prod.mk.injEq] at h
        exact ⟨h.1.symm, h.2.symm⟩

/-- Witness for C9 at a concrete trace. -/
theorem c9_semaphore_acquire_witness :
    ((true = true ∧ (-1 : Int) = -1) ∨ (true = false ∧ (-1 : Int) = 0)) ∧
    (true = true ∧ (-1 : Int) = -1) :=
  ⟨c9_semaphore_acquire.1 5 [⟨1, 0⟩] true (-1) (by decide),
   c9_semaphore_acquire.2 [⟨1, 0⟩] true (-1) (by decide)⟩

/-! ## Claim C10: get_avg_wait_time -/

/-- C10: for every role, `get_avg_wait_time` returns 0 when the selected
sample list is empty, and otherwise returns the arithmetic mean of the
samples (its result times the sample count equals the sample sum). -/
theorem c10_avg_wait (rts wts : List Rat) (pt : String) :
    ((if pt = "reader" then rts else wts) = [] →
       get_avg_wait_time rts wts pt = 0) ∧
    ((if pt = "reader" then rts else wts) ≠ [] →
       ((if pt = "reader" then rts else wts).length : Rat) *
         get_avg_wait_time rts wts pt =
         (if pt = "reader" then rts else wts).sum) := by
  constructor
  · intro h
    simp only [get_avg_wait_time]
    rw [if_pos h]
  · intro h
    have hlen : (((if pt = "reader" then rts else wts).length : Nat) : Rat) ≠ 0 :=
      Nat.cast_ne_zero.2 (fun hl => h (List.length_eq_zero.1 hl))
    simp only [get_avg_wait_time]
    rw [if_neg h, mul_comm, div_mul_cancel₀ _ hlen]

/-- Witness for C10 at concrete sample lists. -/
theorem c10_avg_wait_witness :
    get_avg_wait_time [] [7] "reader" = 0 ∧
    ((if "reader" = "reader" then [(1 : Rat), 3] else []).length : Rat) *
      get_avg_wait_time [1, 3] [] "reader" =
      (if "reader" = "reader" then [(1 : Rat), 3] else []).sum :=
  ⟨(c10_avg_wait [] [7] "reader").1 (by decide),
   (c10_avg_wait [1, 3] [] "reader").2 (by decide)⟩

end RW
